import Mathlib

/-!
Shallow embedding of the Pegasus stampede loader
(`lib/pegasus/python/Pegasus/db/modules/stampede_loader.py`) together with
proofs about its event-processing, key-resolution caching, batching and
flushing logic.  Python dictionaries become association lists, SQLAlchemy
tables become lists of rows with explicitly assigned surrogate keys, and
Python exceptions become explicit `Option`/`Except` error values.
-/

namespace Stampede

/-- A dynamically typed Python value as it appears in BP records and in the
loader's caches.  Equality mirrors Python `==` on mixed types: values of
different runtime types are never equal (`1 == "1"` is `False`,
`None == x` is `False` for non-`None` `x`). -/
inductive PyVal
  | none
  | int (n : Int)
  | str (s : String)
  | real (q : Rat)
deriving DecidableEq, Repr

/-- Python dict lookup `d[k]` / `d.has_key(k)` on an association list. -/
def assocGet {α β : Type} [DecidableEq α] : List (α × β) → α → Option β
  | [], _ => Option.none
  | (k0, v0) :: rest, k => if k0 = k then some v0 else assocGet rest k

/-- Python dict assignment `d[k] = v` on an association list. -/
def assocSet {α β : Type} [DecidableEq α] : List (α × β) → α → β → List (α × β)
  | [], k, v => [(k, v)]
  | (k0, v0) :: rest, k, v =>
    if k0 = k then (k, v) :: rest else (k0, v0) :: assocSet rest k v

/-- Python list indexing `l[i]`: non-negative indices from the front,
negative indices from the back; out of range is an `IndexError`,
modelled as `Option.none`. -/
def pyIndex (l : List String) (i : Int) : Option String :=
  if 0 ≤ i then l.get? i.toNat
  else if (-i).toNat ≤ l.length then l.get? (l.length - (-i).toNat)
  else Option.none

/-- The `states` table of `Analyzer.jobstate` (stampede_loader.py lines
538-557): each event tag maps to a two-element label array indexed by
`status + 1`, i.e. the arrays "map to status [-1, 0]". -/
def statesTable (e : String) : Option (List String) :=
  if e = "stampede.job_inst.pre.start" then
    some ["PRE_SCRIPT_STARTED", "PRE_SCRIPT_STARTED"]
  else if e = "stampede.job_inst.pre.term" then
    some ["PRE_SCRIPT_TERMINATED", "PRE_SCRIPT_TERMINATED"]
  else if e = "stampede.job_inst.pre.end" then
    some ["PRE_SCRIPT_FAILED", "PRE_SCRIPT_SUCCESS"]
  else if e = "stampede.job_inst.submit.end" then
    some ["SUBMIT_FAILED", "SUBMIT"]
  else if e = "stampede.job_inst.main.start" then
    some ["EXECUTE", "EXECUTE"]
  else if e = "stampede.job_inst.main.term" then
    some ["JOB_EVICTED", "JOB_TERMINATED"]
  else if e = "stampede.job_inst.main.end" then
    some ["JOB_FAILURE", "JOB_SUCCESS"]
  else if e = "stampede.job_inst.post.start" then
    some ["POST_SCRIPT_STARTED", "POST_SCRIPT_STARTED"]
  else if e = "stampede.job_inst.post.term" then
    some ["POST_SCRIPT_TERMINATED", "POST_SCRIPT_TERMINATED"]
  else if e = "stampede.job_inst.post.end" then
    some ["POST_SCRIPT_FAILED", "POST_SCRIPT_SUCCESS"]
  else if e = "stampede.job_inst.held.start" then
    some ["JOB_HELD", "JOB_HELD"]
  else if e = "stampede.job_inst.held.end" then
    some ["JOB_RELEASED", "JOB_RELEASED"]
  else if e = "stampede.job_inst.image.info" then
    some ["IMAGE_SIZE", "IMAGE_SIZE"]
  else if e = "stampede.job_inst.abort.info" then
    some ["JOB_ABORTED", "JOB_ABORTED"]
  else if e = "stampede.job_inst.grid.submit.end" then
    some ["GRID_SUBMIT_FAILED", "GRID_SUBMIT"]
  else if e = "stampede.job_inst.globus.submit.end" then
    some ["GLOBUS_SUBMIT_FAILED", "GLOBUS_SUBMIT"]
  else Option.none

/-- Label computation of `Analyzer.jobstate` (lines 559-565).  A tag not in
the table derives its label from the third dot-segment, upper-cased
(`js.event.split('.')[2].upper()`); a tag in the table is doctored to
`status = 0` when status-less and then indexed with `status + 1`.
`Option.none` models an escaping `IndexError`. -/
def jobstateLabel (event : String) (status : Option Int) : Option String :=
  match statesTable event with
  | Option.none => ((event.splitOn ".").get? 2).map String.toUpper
  | some arr =>
    let s := status.getD 0
    pyIndex arr (s + 1)

/-- The claim that `job_inst.main.end` with status `0` yields the failure
label is false: the label arrays are indexed by `status + 1` and map to
statuses `[-1, 0]`, so status `0` yields `JOB_SUCCESS`, and status `1`
indexes past the end of the two-element array (an `IndexError`). -/
theorem C2_counterexample :
    jobstateLabel "stampede.job_inst.main.end" (some 0) = some "JOB_SUCCESS" ∧
    ¬ jobstateLabel "stampede.job_inst.main.end" (some 0) = some "JOB_FAILURE" ∧
    jobstateLabel "stampede.job_inst.main.end" (some 1) = Option.none := by
  decide

/-- C2 (amended): for `job_inst.main.end`, status `-1` yields the failure
label `JOB_FAILURE` and status `0` yields the success label `JOB_SUCCESS`;
for the status-less tag `job_inst.main.start` the label is the fixed label
`EXECUTE` whether the status field is absent or carries either in-range
status value `-1` or `0`. -/
theorem C2_jobstate_label_determinism :
    jobstateLabel "stampede.job_inst.main.end" (some (-1)) = some "JOB_FAILURE" ∧
    jobstateLabel "stampede.job_inst.main.end" (some 0) = some "JOB_SUCCESS" ∧
    jobstateLabel "stampede.job_inst.main.start" Option.none = some "EXECUTE" ∧
    jobstateLabel "stampede.job_inst.main.start" (some (-1)) = some "EXECUTE" ∧
    jobstateLabel "stampede.job_inst.main.start" (some 0) = some "EXECUTE" := by
  decide

/-! ## Flush triggering (`Analyzer.check_flush`, lines 247-275) -/

/-- The loader state relevant to `check_flush`: the batching flag, the
record counter `_flush_count` (incremented once per processed record at the
end of `Analyzer.process`), the time of the last flush `_last_flush`, and
the current length of `_batch_cache['batch_events']` (carried along to
relate the trigger to the insert-buffer size). -/
structure FlushState where
  batch : Bool
  flushCount : Nat
  lastFlush : Int
  batchEventsLen : Nat
deriving DecidableEq, Repr

/-- `_flush_every` (line 117). -/
def flushEvery : Nat := 1000

/-- The hard-coded time threshold of `check_flush` (line 273), seconds. -/
def flushInterval : Int := 30

/-- `Analyzer.check_flush` at time `now`.  Increments `_flush_count`,
then calls `hard_flush` if the counter reached `_flush_every` or if more
than 30 seconds elapsed since `_last_flush`.  `hard_flush` drains the
buffers and `reset_flush_state` zeroes the counter and stamps the time
(lines 247-254, 358-363).  Returns the new state and whether a flush
happened. -/
def check_flush (st : FlushState) (now : Int) : FlushState × Bool :=
  if !st.batch then (st, false)
  else
    let st1 : FlushState :=
      { st with flushCount := st.flushCount + 1 }
    if st1.flushCount ≥ flushEvery then
      ({ st1 with flushCount := 0, lastFlush := now, batchEventsLen := 0 }, true)
    else if now - st1.lastFlush > flushInterval then
      ({ st1 with flushCount := 0, lastFlush := now, batchEventsLen := 0 }, true)
    else (st1, false)

/-- A run of records: `check_flush` fires once per processed record, at the
given timestamps; returns the final state and the number of flushes. -/
def checkFlushRun (st : FlushState) : List Int → FlushState × Nat
  | [] => (st, 0)
  | t :: ts =>
    let p := check_flush st t
    let q := checkFlushRun p.1 ts
    (q.1, (if p.2 then 1 else 0) + q.2)

/-- A concrete batched state: 999 records already counted since the last
flush, but an empty insert buffer and no elapsed time. -/
def c3state : FlushState :=
  { batch := true, flushCount := 999, lastFlush := 0, batchEventsLen := 0 }

/-- The claim that a flush occurs exactly when the insert buffer reaches
1000 entries or the interval elapses is false: `_flush_count` counts
processed records, not buffered inserts, so a flush fires here although the
insert buffer is empty and no time has passed since the last flush. -/
theorem C3_counterexample :
    (check_flush c3state 0).2 = true ∧
    c3state.batchEventsLen = 0 ∧
    (0 : Int) - c3state.lastFlush ≤ flushInterval := by
  decide

/-- C3 (amended): in batched mode a periodic flush fires exactly when the
number of records processed since the last flush reaches 1000, or when
more than 30 seconds elapsed since the last flush, whichever comes first;
processing fewer than 1000 records within the interval causes zero
periodic flushes.  (Separately, `static_end`, and the first `task_map` or
`task_edge` event of a workflow, force a flush outright.) -/
theorem C3_flush_triggers :
    (∀ (st : FlushState) (now : Int),
      (check_flush st now).2 = true ↔
        (st.batch = true ∧
          (st.flushCount + 1 ≥ flushEvery ∨ now - st.lastFlush > flushInterval))) ∧
    (∀ (st : FlushState) (times : List Int),
      st.flushCount + times.length < flushEvery →
      (∀ t ∈ times, t - st.lastFlush ≤ flushInterval) →
      (checkFlushRun st times).2 = 0) := by
  constructor
  · intro st now
    unfold check_flush
    rcases hb : st.batch with _ | _
    · simp [hb]
    · simp only [hb, Bool.not_true, Bool.false_eq_true, if_false]
      by_cases h1 : st.flushCount + 1 ≥ flushEvery
      · simp [h1]
      · by_cases h2 : now - st.lastFlush > flushInterval
        · simp [h1, h2]
        · simp [h1, h2]
  · intro st times
    induction times generalizing st with
    | nil => intro _ _; rfl
    | cons t ts ih =>
      intro hlen htime
      have hcount : ¬ st.flushCount + 1 ≥ flushEvery := by
        simp only [List.length_cons] at hlen
        omega
      have ht : ¬ t - st.lastFlush > flushInterval := by
        have := htime t (by simp)
        omega
      rcases hb : st.batch with _ | _
      · have hstep : check_flush st t = (st, false) := by
          unfold check_flush
          simp [hb]
        unfold checkFlushRun
        rw [hstep]
        simp only [Bool.false_eq_true, if_false, zero_add]
        exact ih st (by simp only [List.length_cons] at hlen; omega)
          (fun x hx => htime x (by simp [hx]))
      · have hstep : check_flush st t =
            ({ st with flushCount := st.flushCount + 1 }, false) := by
          unfold check_flush
          simp [hb, hcount, ht]
        unfold checkFlushRun
        rw [hstep]
        simp only [Bool.false_eq_true, if_false, zero_add]
        exact ih _ (by simp only [List.length_cons] at hlen; simp; omega)
          (fun x hx => htime x (by simp [hx]))

/-- A fresh batched state with nothing counted or buffered. -/
def c3fresh : FlushState :=
  { batch := true, flushCount := 0, lastFlush := 0, batchEventsLen := 0 }

/-- Witness for `C3_flush_triggers`: three records within the interval
cause zero flushes, and a state one record short of the threshold flushes
on the next record. -/
theorem C3_flush_triggers_witness :
    (checkFlushRun c3fresh [1, 2, 3]).2 = 0 ∧
    (check_flush c3state 0).2 = true := by
  constructor
  · exact C3_flush_triggers.2 _ [1, 2, 3] (by decide) (by decide)
  · exact (C3_flush_triggers.1 c3state 0).2 (by decide)

/-! ## Event dispatch in `Analyzer.process` (lines 130-169) -/

/-- The Python exceptions that can cross a handler boundary in the loader. -/
inductive PyExc
  | keyError
  | integrityError
  | operationalError
  | noResultFound
  | multipleResultsFound
  | indexError
  | valueError
deriving DecidableEq, Repr

/-- The exception classes caught by the `except` clauses of
`Analyzer.process` (lines 151-167): `KeyError`, `exc.IntegrityError` and
`exc.OperationalError`.  Everything else propagates to the caller. -/
def processCatches : PyExc → Bool
  | PyExc.keyError => true
  | PyExc.integrityError => true
  | PyExc.operationalError => true
  | _ => false

/-- The keys of `self.eventMap` (lines 64-99). -/
def eventMapTags : List String :=
  ["stampede.wf.plan", "stampede.wf.map.task_job", "stampede.static.start",
   "stampede.static.end", "stampede.xwf.start", "stampede.xwf.end",
   "stampede.xwf.map.subwf_job", "stampede.task.info", "stampede.task.edge",
   "stampede.job.info", "stampede.job.edge", "stampede.job_inst.pre.start",
   "stampede.job_inst.pre.term", "stampede.job_inst.pre.end",
   "stampede.job_inst.submit.start", "stampede.job_inst.submit.end",
   "stampede.job_inst.held.start", "stampede.job_inst.held.end",
   "stampede.job_inst.main.start", "stampede.job_inst.main.term",
   "stampede.job_inst.main.end", "stampede.job_inst.post.start",
   "stampede.job_inst.post.term", "stampede.job_inst.post.end",
   "stampede.job_inst.host.info", "stampede.job_inst.image.info",
   "stampede.job_inst.abort.info", "stampede.job_inst.grid.submit.start",
   "stampede.job_inst.grid.submit.end", "stampede.job_inst.globus.submit.start",
   "stampede.job_inst.globus.submit.end", "stampede.inv.start",
   "stampede.inv.end", "stampede.job.monitoring"]

/-- Outcome of one `process(linedata)` call, as observable by the caller. -/
inductive ProcessResult
  | handled
  | reroutedToJobstate
  | droppedNoHandler
  | droppedIntegrity
  | retriedOperational
  | raised (e : PyExc)
deriving DecidableEq, Repr

/-- Python `s.startswith(p)`. -/
def startsWithPy (s p : String) : Bool :=
  decide (s.data.take p.data.length = p.data)

/-- The `except KeyError` branch of `process` (lines 151-156): a tag under
the `stampede.job_inst.` namespace is re-dispatched to the `jobstate`
handler with a warning; any other tag gets a "no handler" error log and
the record is dropped. -/
def keyErrorBranch (tag : String) : ProcessResult :=
  if startsWithPy tag "stampede.job_inst." then ProcessResult.reroutedToJobstate
  else ProcessResult.droppedNoHandler

/-- The dispatch-and-catch structure of `Analyzer.process`, parameterised
by what the dispatched handler does (`handler tag` is `Except.ok ()` if the
handler returns normally, `Except.error e` if it raises `e`).  A tag
missing from `eventMap` raises `KeyError` at `self.eventMap[...]`, which
lands in the same `except KeyError` clause as a `KeyError` raised inside
the handler.  An `IntegrityError` is logged and rolled back; an
`OperationalError` rolls back, refreshes the connection and re-calls
`process` (modelled as `retriedOperational`); other exceptions escape. -/
def processDispatch (handler : String → Except PyExc Unit) (tag : String) :
    ProcessResult :=
  if eventMapTags.contains tag then
    match handler tag with
    | Except.ok _ => ProcessResult.handled
    | Except.error PyExc.keyError => keyErrorBranch tag
    | Except.error PyExc.integrityError => ProcessResult.droppedIntegrity
    | Except.error PyExc.operationalError => ProcessResult.retriedOperational
    | Except.error e => ProcessResult.raised e
  else keyErrorBranch tag

/-- C10: a handler that itself raises `KeyError` is treated exactly like an
unknown event tag — the record is re-dispatched to `jobstate` when its tag
starts with `stampede.job_inst.`, and otherwise dropped with a "no handler"
log; in neither case does the exception escape `process`. -/
theorem C10_handler_keyerror_like_unknown_tag
    (handler : String → Except PyExc Unit) (tag : String)
    (h : handler tag = Except.error PyExc.keyError) :
    processDispatch handler tag = keyErrorBranch tag ∧
    (∀ unknownHandler : String → Except PyExc Unit,
      eventMapTags.contains tag = false →
      processDispatch unknownHandler tag = processDispatch handler tag) ∧
    (startsWithPy tag "stampede.job_inst." = true →
      processDispatch handler tag = ProcessResult.reroutedToJobstate) ∧
    (startsWithPy tag "stampede.job_inst." = false →
      processDispatch handler tag = ProcessResult.droppedNoHandler) ∧
    (∀ e, processDispatch handler tag ≠ ProcessResult.raised e) := by
  have hd : processDispatch handler tag = keyErrorBranch tag := by
    unfold processDispatch
    rcases hm : eventMapTags.contains tag with _ | _
    · simp
    · simp [h]
  refine ⟨hd, ?_, ?_, ?_, ?_⟩
  · intro uh hm
    rw [hd]
    unfold processDispatch
    rw [hm]
    simp
  · intro hs
    rw [hd]
    unfold keyErrorBranch
    simp [hs]
  · intro hs
    rw [hd]
    unfold keyErrorBranch
    simp [hs]
  · intro e
    rw [hd]
    unfold keyErrorBranch
    rcases hs : startsWithPy tag "stampede.job_inst." with _ | _
    · simp
    · simp

/-- Witness for `C10_handler_keyerror_like_unknown_tag` at a handler that
raises `KeyError` on the in-map tag `stampede.job_inst.image.info`. -/
theorem C10_witness :
    processDispatch (fun _ => Except.error PyExc.keyError)
      "stampede.job_inst.image.info" = ProcessResult.reroutedToJobstate := by
  exact (C10_handler_keyerror_like_unknown_tag
    (fun _ => Except.error PyExc.keyError)
    "stampede.job_inst.image.info" rfl).2.2.1 (by decide)

/-! ## Batch flush with per-row fallback (`Analyzer.hard_flush` lines
296-364 and `Analyzer.individual_commit` lines 369-387)

The insert path of `hard_flush` is modelled over rows with an explicit
uniqueness key: a bulk commit succeeds only when no inserted key collides
with the store or with another row of the batch; on an `IntegrityError` the
transaction is rolled back and `hard_flush` re-invokes itself with
`batch_flush=False`, committing each row individually so the good rows
survive.  The update/merge and host-mapping buffers are drained by the
state-level `hard_flushState` below; they are irrelevant to this
uniqueness analysis. -/

/-- A buffered insert row: a uniqueness key plus its payload. -/
structure Row4 where
  key : Nat
  payload : String
deriving DecidableEq, Repr

/-- A row violates the store's uniqueness constraint iff its key is
already present. -/
def conflictsWith (db : List Row4) (e : Row4) : Bool :=
  (db.map Row4.key).contains e.key

/-- `individual_commit` (lines 369-387): commit one row in its own
transaction; on `IntegrityError` log the failed insert and roll back,
leaving the store unchanged. -/
def individual_commit (db : List Row4) (rowFailLogs : Nat) (e : Row4) :
    List Row4 × Nat :=
  if conflictsWith db e then (db, rowFailLogs + 1) else (db ++ [e], rowFailLogs)

/-- The fallback path of `hard_flush` (`batch_flush=False`): every buffered
row is handed to `individual_commit` in order. -/
def fallback_flush (db : List Row4) (batch : List Row4) (rowFailLogs : Nat) :
    List Row4 × Nat :=
  match batch with
  | [] => (db, rowFailLogs)
  | e :: rest =>
    let p := individual_commit db rowFailLogs e
    fallback_flush p.1 rest p.2

/-- Whether `session.add` of every batched row followed by one
`session.commit()` succeeds: each row must be fresh with respect to the
store and to the rows added before it. -/
def bulkCommitOk (db : List Row4) (batch : List Row4) : Bool :=
  match batch with
  | [] => true
  | e :: rest => !conflictsWith db e && bulkCommitOk (db ++ [e]) rest

/-- Result of a flush: the store, the count of per-row "Insert failed"
logs from `individual_commit`, and the count of batch-level "Integrity
error on batch flush" logs from `hard_flush` itself. -/
structure FlushOutcome where
  db : List Row4
  rowFailLogs : Nat
  batchFailLogs : Nat
deriving DecidableEq, Repr

/-- The insert path of `hard_flush` (lines 324-349): try the bulk commit;
on an `IntegrityError` roll back (the store is untouched) and replay the
whole batch through `individual_commit`. -/
def hard_flush_inserts (db : List Row4) (batch : List Row4) : FlushOutcome :=
  if bulkCommitOk db batch then
    { db := db ++ batch, rowFailLogs := 0, batchFailLogs := 0 }
  else
    let p := fallback_flush db batch 0
    { db := p.1, rowFailLogs := p.2, batchFailLogs := 1 }

theorem conflictsWith_append_singleton (db : List Row4) (e x : Row4)
    (hk : x.key ≠ e.key) :
    conflictsWith (db ++ [e]) x = conflictsWith db x := by
  unfold conflictsWith
  simp [hk]

theorem bulkCommitOk_false_of_conflict (batch : List Row4) :
    ∀ (db : List Row4) (x : Row4), x ∈ batch → conflictsWith db x = true →
    bulkCommitOk db batch = false := by
  induction batch with
  | nil => intro db x hx; cases hx
  | cons e rest ih =>
    intro db x hx hc
    unfold bulkCommitOk
    rcases List.mem_cons.mp hx with hx1 | hx1
    · subst hx1
      simp [hc]
    · rcases he : conflictsWith db e with _ | _
      · have hc2 : conflictsWith (db ++ [e]) x = true := by
          unfold conflictsWith at hc ⊢
          simp only [List.map_append, List.map_cons, List.map_nil]
          simp at hc ⊢
          exact Or.inl hc
        simp [ih (db ++ [e]) x hx1 hc2]
      · simp [he]

theorem fallback_flush_spec (batch : List Row4) :
    ∀ (db : List Row4) (rf : Nat),
    batch.Pairwise (fun a b => a.key ≠ b.key) →
    fallback_flush db batch rf =
      (db ++ batch.filter (fun e => !conflictsWith db e),
       rf + (batch.filter (fun e => conflictsWith db e)).length) := by
  induction batch with
  | nil => intro db rf _; simp [fallback_flush]
  | cons e rest ih =>
    intro db rf hpw
    have hpw2 := (List.pairwise_cons.mp hpw).2
    have hhd := (List.pairwise_cons.mp hpw).1
    unfold fallback_flush individual_commit
    rcases he : conflictsWith db e with _ | _
    · simp only [Bool.false_eq_true, if_false]
      rw [ih (db ++ [e]) rf hpw2]
      have hfilt1 : rest.filter (fun x => !conflictsWith (db ++ [e]) x) =
          rest.filter (fun x => !conflictsWith db x) := by
        apply List.filter_congr
        intro x hx
        rw [conflictsWith_append_singleton db e x (Ne.symm (hhd x hx))]
      have hfilt2 : rest.filter (fun x => conflictsWith (db ++ [e]) x) =
          rest.filter (fun x => conflictsWith db x) := by
        apply List.filter_congr
        intro x hx
        rw [conflictsWith_append_singleton db e x (Ne.symm (hhd x hx))]
      rw [hfilt1, hfilt2]
      simp [he, List.append_assoc]
    · simp only [if_true]
      rw [ih db (rf + 1) hpw2]
      simp [he]
      omega

/-- C4: if exactly one row of a buffered batch with pairwise-distinct keys
violates the store's uniqueness constraint, the flush persists all other
rows (the conflicting row alone is dropped) and logs exactly one per-row
insert failure. -/
theorem C4_batch_conflict_isolation (db batch : List Row4)
    (hpw : batch.Pairwise (fun a b => a.key ≠ b.key))
    (hone : (batch.filter (fun e => conflictsWith db e)).length = 1) :
    (hard_flush_inserts db batch).db =
      db ++ batch.filter (fun e => !conflictsWith db e) ∧
    (hard_flush_inserts db batch).rowFailLogs = 1 ∧
    (hard_flush_inserts db batch).db.length = db.length + batch.length - 1 := by
  have hx : ∃ x ∈ batch, conflictsWith db x = true := by
    rcases hf : batch.filter (fun e => conflictsWith db e) with _ | ⟨x, rest⟩
    · rw [hf] at hone; simp at hone
    · refine ⟨x, ?_, ?_⟩
      · have : x ∈ batch.filter (fun e => conflictsWith db e) := by
          rw [hf]; simp
        exact List.mem_of_mem_filter this
      · have : x ∈ batch.filter (fun e => conflictsWith db e) := by
          rw [hf]; simp
        exact List.of_mem_filter this
  rcases hx with ⟨x, hxm, hxc⟩
  have hbulk : bulkCommitOk db batch = false :=
    bulkCommitOk_false_of_conflict batch db x hxm hxc
  have htot : batch.length =
      (batch.filter (fun e => conflictsWith db e)).length +
      (batch.filter (fun e => !conflictsWith db e)).length :=
    List.length_eq_length_filter_add (fun e => conflictsWith db e)
  have hlen : (batch.filter (fun e => !conflictsWith db e)).length =
      batch.length - 1 := by
    omega
  unfold hard_flush_inserts
  rw [hbulk]
  simp only [Bool.false_eq_true, if_false]
  rw [fallback_flush_spec batch db 0 hpw]
  refine ⟨rfl, by simpa using hone, ?_⟩
  simp only [List.length_append, hlen]
  omega

/-- Concrete instance for `C4_batch_conflict_isolation`: a three-row batch
whose first row collides with the store; the two good rows survive and one
failure is logged. -/
def c4db : List Row4 := [{ key := 1, payload := "existing" }]

def c4batch : List Row4 :=
  [{ key := 1, payload := "dup" }, { key := 2, payload := "b" },
   { key := 3, payload := "c" }]

/-- Witness for `C4_batch_conflict_isolation`. -/
theorem C4_batch_conflict_isolation_witness :
    (hard_flush_inserts c4db c4batch).db =
      c4db ++ c4batch.filter (fun e => !conflictsWith c4db e) ∧
    (hard_flush_inserts c4db c4batch).rowFailLogs = 1 ∧
    (hard_flush_inserts c4db c4batch).db.length =
      c4db.length + c4batch.length - 1 := by
  exact C4_batch_conflict_isolation c4db c4batch (by decide) (by decide)

/-! ## The store, the loader state and the key resolvers
(lines 101-127, 806-898)

SQLAlchemy tables become lists of rows; surrogate keys are assigned from a
monotone `nextId` counter at insert, modelling autoincrement primary keys.
The four lookup caches are Python dicts whose keys hold dynamically typed
values, so cache keys are `PyVal`s (`flushCaches` compares keys of one
cache against values of another type, which in Python silently compares
unequal — the `PyVal` equality reproduces that). -/

/-- Result of SQLAlchemy `Query.one()`: zero rows raise `NoResultFound`,
more than one raise `MultipleResultsFound`. -/
inductive QErr
  | noResult
  | multiple
deriving DecidableEq, Repr

def queryOne {α : Type} : List α → Except QErr α
  | [] => Except.error QErr.noResult
  | [a] => Except.ok a
  | _ :: _ :: _ => Except.error QErr.multiple

structure WorkflowRow where
  wf_id : Int
  wf_uuid : String
  root_wf_id : Option Int
  parent_wf_id : Option Int
deriving DecidableEq, Repr

structure JobRow where
  job_id : Int
  wf_id : Option Int
  exec_job_id : String
  clustered : PyVal
deriving DecidableEq, Repr

structure JobEdgeRow where
  wf_id : Option Int
  parent_exec_job_id : String
  child_exec_job_id : String
deriving DecidableEq, Repr

structure TaskRow where
  wf_id : Option Int
  abs_task_id : String
  job_id : Option Int
deriving DecidableEq, Repr

structure TaskEdgeRow where
  wf_id : Option Int
  parent_abs_task_id : String
  child_abs_task_id : String
deriving DecidableEq, Repr

structure JobInstanceRow where
  job_instance_id : Int
  job_id : Option Int
  job_submit_seq : Int
  host_id : Option Int
  subwf_id : Option Int
deriving DecidableEq, Repr

structure JobstateRow where
  job_instance_id : Option Int
  state : String
  timestamp : Int
deriving DecidableEq, Repr

structure HostRow where
  host_id : Int
  wf_id : Option Int
  site : String
  hostname : String
  ip : String
deriving DecidableEq, Repr

structure InvocationRow where
  wf_id : Option Int
  job_instance_id : Option Int
  task_submit_seq : Int
deriving DecidableEq, Repr

/-- A `Workflowstate` mapper object; it retains the raw `wf_uuid` and
`event` attributes set by `linedataToObject`, which `hard_flush` and
`flushCaches` read back. -/
structure WorkflowstateRow where
  wf_id : Option Int
  state : String
  timestamp : Int
  wf_uuid : String
  event : String
deriving DecidableEq, Repr

/-- A `Host` mapper object as handled by `Analyzer.host`: `host_id` is
unset until `commit_to_db` assigns it; `wf_uuid`, `exec_job_id` and
`job_submit_seq` are record attributes used by
`map_host_to_job_instance`. -/
structure HostObj where
  host_id : Option Int
  wf_uuid : String
  wf_id : Option Int
  site : String
  hostname : String
  ip : String
  exec_job_id : String
  job_submit_seq : Int
deriving DecidableEq, Repr

/-- The relational store. -/
structure DB where
  workflows : List WorkflowRow := []
  workflowstates : List WorkflowstateRow := []
  jobs : List JobRow := []
  job_edges : List JobEdgeRow := []
  tasks : List TaskRow := []
  task_edges : List TaskEdgeRow := []
  job_instances : List JobInstanceRow := []
  jobstates : List JobstateRow := []
  hosts : List HostRow := []
  invocations : List InvocationRow := []
  nextId : Int := 1
deriving DecidableEq, Repr

/-- An event buffered in `_batch_cache['batch_events']` or
`_batch_cache['update_events']`. -/
inductive BEvent
  | wfsE (w : WorkflowstateRow)
  | jobE (j : JobRow)
  | jobEdgeE (e : JobEdgeRow)
  | taskE (t : TaskRow)
  | taskEdgeE (e : TaskEdgeRow)
  | jsE (s : JobstateRow)
  | invE (i : InvocationRow)
  | hostE (h : HostObj)
deriving DecidableEq, Repr

/-- The mutable state of one `Analyzer` instance (lines 101-127): the
batching flag, the store, the four lookup caches plus the host
de-duplication set (`hosts_written_cache`, `None` until first use), the
first-task-map/task-edge flush markers, the three batch buffers, and a
count of logged errors (`self.log.error`/`warn`/`exception` calls). -/
structure LoaderState where
  batch : Bool := false
  db : DB := {}
  wf_id_cache : List (PyVal × Int) := []
  root_wf_id_cache : List (PyVal × Option Int) := []
  job_id_cache : List ((PyVal × PyVal) × Int) := []
  job_instance_id_cache : List ((PyVal × PyVal) × Int) := []
  host_cache : List ((PyVal × PyVal) × Bool) := []
  hosts_written_cache : Option (List (Option Int × String × String × String)) :=
    Option.none
  task_map_flush : List (PyVal × Bool) := []
  task_edge_flush : List (PyVal × Bool) := []
  batchEvents : List BEvent := []
  updateEvents : List (Option Int × JobInstanceRow) := []
  hostMapEvents : List HostObj := []
  errorLogs : Nat := 0
deriving DecidableEq, Repr

/-- One `self.log.error` (or `warn`/`exception`) call. -/
def logError (st : LoaderState) : LoaderState :=
  { st with errorLogs := st.errorLogs + 1 }

/-- A Python value that is an int or `None`, as stored in cache keys. -/
def pvOfOptInt : Option Int → PyVal
  | Option.none => PyVal.none
  | some n => PyVal.int n

/-- `Analyzer.wf_uuid_to_id` (lines 806-826): check `wf_id_cache`; on a
miss query the workflow table by `wf_uuid`; zero or multiple matches log
an error and return `None` (nothing is cached); a unique match is cached
and returned. -/
def wf_uuid_to_id (st : LoaderState) (wf_uuid : String) :
    LoaderState × Option Int :=
  match assocGet st.wf_id_cache (PyVal.str wf_uuid) with
  | some v => (st, some v)
  | Option.none =>
    match queryOne (st.db.workflows.filter (fun w => w.wf_uuid == wf_uuid)) with
    | Except.ok w =>
      ({ st with wf_id_cache :=
          assocSet st.wf_id_cache (PyVal.str wf_uuid) w.wf_id }, some w.wf_id)
    | Except.error _ => (logError st, Option.none)

/-- `Analyzer.wf_uuid_to_root_id` (lines 828-848): like `wf_uuid_to_id`
but caches and returns the row's `root_wf_id`, which may itself be null. -/
def wf_uuid_to_root_id (st : LoaderState) (wf_uuid : String) :
    LoaderState × Option Int :=
  match assocGet st.root_wf_id_cache (PyVal.str wf_uuid) with
  | some v => (st, v)
  | Option.none =>
    match queryOne (st.db.workflows.filter (fun w => w.wf_uuid == wf_uuid)) with
    | Except.ok w =>
      ({ st with root_wf_id_cache :=
          assocSet st.root_wf_id_cache (PyVal.str wf_uuid) w.root_wf_id },
       w.root_wf_id)
    | Except.error _ => (logError st, Option.none)

/-- `Analyzer.get_job_id` (lines 850-871): keyed on `(wf_id, exec_job_id)`
— `wf_id` may be `None` when the workflow was unresolvable, and the key is
cached with that `None` inside. -/
def get_job_id (st : LoaderState) (wf_id : Option Int) (exec_id : String) :
    LoaderState × Option Int :=
  let key := (pvOfOptInt wf_id, PyVal.str exec_id)
  match assocGet st.job_id_cache key with
  | some v => (st, some v)
  | Option.none =>
    match queryOne (st.db.jobs.filter
        (fun j => j.wf_id == wf_id && j.exec_job_id == exec_id)) with
    | Except.ok j =>
      ({ st with job_id_cache := assocSet st.job_id_cache key j.job_id },
       some j.job_id)
    | Except.error _ => (logError st, Option.none)

/-- `Analyzer.get_job_instance_id` (lines 874-898): resolves the workflow
and job first, then looks up `(job_id, job_submit_seq)`; with `quiet=True`
a failed final lookup is not logged (the inner resolvers still log). -/
def get_job_instance_id (st : LoaderState) (wf_uuid exec_job_id : String)
    (job_submit_seq : Int) (quiet : Bool) : LoaderState × Option Int :=
  let p := wf_uuid_to_id st wf_uuid
  let q := get_job_id p.1 p.2 exec_job_id
  let key := (pvOfOptInt q.2, PyVal.int job_submit_seq)
  match assocGet q.1.job_instance_id_cache key with
  | some v => (q.1, some v)
  | Option.none =>
    match queryOne (q.1.db.job_instances.filter
        (fun ji => ji.job_id == q.2 && ji.job_submit_seq == job_submit_seq)) with
    | Except.ok ji =>
      ({ q.1 with job_instance_id_cache :=
          assocSet q.1.job_instance_id_cache key ji.job_instance_id },
       some ji.job_instance_id)
    | Except.error _ =>
      ((if quiet then q.1 else logError q.1), Option.none)

/-! ## Cache invalidation (`Analyzer.flushCaches`, lines 926-957) -/

/-- `Analyzer.flushCaches`: invoked with a `Workflowstate` object from a
`stampede.xwf.end` event.  Deletes `wf_id_cache`/`root_wf_id_cache`
entries whose key equals `wfs.wf_uuid`; deletes `job_instance_id_cache`
and `job_id_cache` entries whose key's first component equals
`wfs.wf_id`; deletes `host_cache` entries whose key's first component
equals `wfs.wf_uuid`; and drops the workflow's `_task_map_flush` marker.
The key comparisons are Python `==` on dynamically typed values, so a
job-id key component never equals a `wf_uuid` string. -/
def flushCaches (st : LoaderState) (wfs_wf_uuid : String)
    (wfs_wf_id : Option Int) : LoaderState :=
  { st with
    wf_id_cache :=
      st.wf_id_cache.filter (fun kv => !(kv.1 == PyVal.str wfs_wf_uuid)),
    root_wf_id_cache :=
      st.root_wf_id_cache.filter (fun kv => !(kv.1 == PyVal.str wfs_wf_uuid)),
    job_instance_id_cache :=
      st.job_instance_id_cache.filter
        (fun kv => !(kv.1.1 == pvOfOptInt wfs_wf_id)),
    host_cache :=
      st.host_cache.filter (fun kv => !(kv.1.1 == PyVal.str wfs_wf_uuid)),
    job_id_cache :=
      st.job_id_cache.filter (fun kv => !(kv.1.1 == pvOfOptInt wfs_wf_id)),
    task_map_flush :=
      st.task_map_flush.filter (fun kv => !(kv.1 == PyVal.str wfs_wf_uuid)) }

/-- A state in which workflow `u1` has surrogate id 1 and owns job 10
(whose instance 100 and host mapping are cached), while workflow `u2` has
surrogate id 2 and owns job 1 — a job id that happens to coincide with
`u1`'s workflow id. -/
def c5state : LoaderState :=
  { wf_id_cache := [(PyVal.str "u1", 1), (PyVal.str "u2", 2)],
    root_wf_id_cache := [(PyVal.str "u1", some 1), (PyVal.str "u2", some 2)],
    job_id_cache :=
      [((PyVal.int 1, PyVal.str "j1"), 10), ((PyVal.int 2, PyVal.str "j2"), 1)],
    job_instance_id_cache :=
      [((PyVal.int 10, PyVal.int 1), 100), ((PyVal.int 1, PyVal.int 1), 200)],
    host_cache := [((PyVal.int 10, PyVal.int 1), true)] }

/-- C5 fails on the code: after the termination of workflow `u1`
(uuid `"u1"`, wf_id 1), the `job_instance_id_cache` entry and the
`host_cache` entry of `u1`'s own job 10 survive (their keys start with the
job id 10, which is compared against the wf_id 1 and against the uuid
string, respectively), while the `job_instance_id_cache` entry of the
*other* workflow's job 1 is purged because its job id collides with
`u1`'s workflow id. -/
theorem C5_flushCaches_misses_job_scoped_entries :
    (flushCaches c5state "u1" (some 1)).host_cache =
      [((PyVal.int 10, PyVal.int 1), true)] ∧
    (flushCaches c5state "u1" (some 1)).job_instance_id_cache =
      [((PyVal.int 10, PyVal.int 1), 100)] ∧
    (flushCaches c5state "u1" (some 1)).wf_id_cache =
      [(PyVal.str "u2", 2)] ∧
    (flushCaches c5state "u1" (some 1)).root_wf_id_cache =
      [(PyVal.str "u2", some 2)] ∧
    (flushCaches c5state "u1" (some 1)).job_id_cache =
      [((PyVal.int 2, PyVal.str "j2"), 1)] := by
  decide

/-! ## Event handlers (lines 393-758)

Each handler receives the already-mapped record attributes (the raw
string-to-value mapping work of `linedataToObject` is modelled separately
below); `Rec` carries every attribute the handlers read.  Surrogate keys
are positive (`nextId` starts at 1), so Python truthiness tests on ids
(`if not job_instance.job_id`) coincide with `Option` emptiness. -/

structure Rec where
  event : String := ""
  wf_uuid : String := ""
  root_xwf_id : String := ""
  parent_wf_uuid : Option String := Option.none
  exec_job_id : String := ""
  job_submit_seq : Int := 0
  status : Option Int := Option.none
  ts : Int := 0
  argv : PyVal := PyVal.none
  site : String := ""
  hostname : String := ""
  ip : String := ""
  task_submit_seq : Int := 0
  abs_task_id : String := ""
  parent_abs_task_id : String := ""
  child_abs_task_id : String := ""
  parent_exec_job_id : String := ""
  child_exec_job_id : String := ""
  clustered : PyVal := PyVal.none
  subwf_uuid : String := ""
deriving DecidableEq, Repr

/-- Modelled from the spec: `commit_to_db` of the schema module
(`Pegasus.db.schema`, not under `src/`) inserts the mapped object and
assigns its autoincrement surrogate key, committing immediately. -/
def DB.insertJob (db : DB) (j : JobRow) : DB × Int :=
  let i := db.nextId
  ({ db with
      jobs := db.jobs ++ [{ j with job_id := i }],
      nextId := db.nextId + 1 }, i)

/-- Modelled from the spec: `commit_to_db` for a `JobInstance` row
(schema module not under `src/`); assigns the autoincrement key. -/
def DB.insertJobInstance (db : DB) (j : JobInstanceRow) : DB × Int :=
  let i := db.nextId
  ({ db with
      job_instances := db.job_instances ++ [{ j with job_instance_id := i }],
      nextId := db.nextId + 1 }, i)

/-- Modelled from the spec: `commit_to_db` for a `Host` row (schema module
not under `src/`); assigns the autoincrement key. -/
def DB.insertHost (db : DB) (h : HostObj) : DB × Int :=
  let i := db.nextId
  ({ db with
      hosts := db.hosts ++
        [{ host_id := i, wf_id := h.wf_id, site := h.site,
           hostname := h.hostname, ip := h.ip }],
      nextId := db.nextId + 1 }, i)

/-- Modelled from the spec: `merge_to_db` for a `JobInstance`
(schema module not under `src/`): an update-style write keyed on the
primary key — with a key it updates (or re-creates) that row, with a null
key it inserts a fresh row. -/
def DB.mergeJobInstance (db : DB) (pk : Option Int) (row : JobInstanceRow) :
    DB :=
  match pk with
  | Option.none => (DB.insertJobInstance db row).1
  | some i =>
    if db.job_instances.any (fun ji => ji.job_instance_id == i) then
      { db with job_instances := db.job_instances.map (fun ji =>
          if ji.job_instance_id == i then { row with job_instance_id := i }
          else ji) }
    else
      { db with job_instances := db.job_instances ++
          [{ row with job_instance_id := i }] }

/-- `Analyzer.jobstate` (lines 528-578): compute the state label (see
`jobstateLabel`; `Option.none` there is an escaping `IndexError`), resolve
the job instance (drop the record with an error log if unresolved), then
write or buffer the `Jobstate` row. -/
def jobstate (st : LoaderState) (r : Rec) : LoaderState × Option PyExc :=
  match jobstateLabel r.event r.status with
  | Option.none => (st, some PyExc.indexError)
  | some lbl =>
    let p := get_job_instance_id st r.wf_uuid r.exec_job_id
      r.job_submit_seq false
    match p.2 with
    | Option.none => (logError p.1, Option.none)
    | some i =>
      let row : JobstateRow :=
        { job_instance_id := some i, state := lbl, timestamp := r.ts }
      if p.1.batch then
        ({ p.1 with batchEvents := p.1.batchEvents ++ [BEvent.jsE row] },
         Option.none)
      else
        ({ p.1 with db :=
            { p.1.db with jobstates := p.1.db.jobstates ++ [row] } },
         Option.none)

/-- `Analyzer.job_instance` (lines 482-527): drop with an error log when
the workflow or the job is unresolvable; on `submit.start`/`pre.start`
quietly look up the instance and insert-and-reresolve if absent
(forwarding `pre.start` to `jobstate`); on `main.end`/`post.end` resolve
the instance id, set it on the entity, update (or queue the update), and
forward to `jobstate`. -/
def job_instance (st : LoaderState) (r : Rec) : LoaderState × Option PyExc :=
  let p := wf_uuid_to_id st r.wf_uuid
  match p.2 with
  | Option.none => (logError p.1, Option.none)
  | some wfid =>
    let q := get_job_id p.1 (some wfid) r.exec_job_id
    match q.2 with
    | Option.none => (logError q.1, Option.none)
    | some jobid =>
      if r.event == "stampede.job_inst.submit.start" ||
         r.event == "stampede.job_inst.pre.start" then
        let s := get_job_instance_id q.1 r.wf_uuid r.exec_job_id
          r.job_submit_seq true
        let st2 :=
          match s.2 with
          | some _ => s.1
          | Option.none =>
            let row : JobInstanceRow :=
              { job_instance_id := 0, job_id := some jobid,
                job_submit_seq := r.job_submit_seq,
                host_id := Option.none, subwf_id := Option.none }
            let d := DB.insertJobInstance s.1.db row
            (get_job_instance_id { s.1 with db := d.1 } r.wf_uuid
              r.exec_job_id r.job_submit_seq false).1
        if r.event == "stampede.job_inst.pre.start" then jobstate st2 r
        else (st2, Option.none)
      else if r.event == "stampede.job_inst.main.end" ||
              r.event == "stampede.job_inst.post.end" then
        let s := get_job_instance_id q.1 r.wf_uuid r.exec_job_id
          r.job_submit_seq false
        let row : JobInstanceRow :=
          { job_instance_id := 0, job_id := some jobid,
            job_submit_seq := r.job_submit_seq,
            host_id := Option.none, subwf_id := Option.none }
        let st2 :=
          if s.1.batch then
            { s.1 with updateEvents := s.1.updateEvents ++ [(s.2, row)] }
          else { s.1 with db := DB.mergeJobInstance s.1.db s.2 row }
        jobstate st2 r
      else (q.1, Option.none)

/-- `Analyzer.job` (lines 449-464): resolve the workflow id and write or
buffer the `Job` row.  The resolved id is used unchecked — an unresolvable
workflow leaves `wf_id` null on the written row.  (The `util.as_bool`
coercion of `clustered` lives in a netlogger module outside `src/` and is
not modelled; the raw value is carried through.) -/
def job (st : LoaderState) (r : Rec) : LoaderState :=
  let p := wf_uuid_to_id st r.wf_uuid
  let row : JobRow :=
    { job_id := 0, wf_id := p.2, exec_job_id := r.exec_job_id,
      clustered := r.clustered }
  if p.1.batch then
    { p.1 with batchEvents := p.1.batchEvents ++ [BEvent.jobE row] }
  else { p.1 with db := (DB.insertJob p.1.db row).1 }

/-- `Analyzer.job_edge` (lines 466-480): same unchecked pattern as
`job`. -/
def job_edge (st : LoaderState) (r : Rec) : LoaderState :=
  let p := wf_uuid_to_id st r.wf_uuid
  let row : JobEdgeRow :=
    { wf_id := p.2, parent_exec_job_id := r.parent_exec_job_id,
      child_exec_job_id := r.child_exec_job_id }
  if p.1.batch then
    { p.1 with batchEvents := p.1.batchEvents ++ [BEvent.jobEdgeE row] }
  else
    { p.1 with db :=
        { p.1.db with job_edges := p.1.db.job_edges ++ [row] } }

/-- `Analyzer.task` (lines 602-616): same unchecked pattern as `job`. -/
def task (st : LoaderState) (r : Rec) : LoaderState :=
  let p := wf_uuid_to_id st r.wf_uuid
  let row : TaskRow :=
    { wf_id := p.2, abs_task_id := r.abs_task_id, job_id := Option.none }
  if p.1.batch then
    { p.1 with batchEvents := p.1.batchEvents ++ [BEvent.taskE row] }
  else
    { p.1 with db := { p.1.db with tasks := p.1.db.tasks ++ [row] } }

/-- `Analyzer.invocation` (lines 580-600): the workflow id is resolved
unchecked, but the job-instance id is required — an unresolved instance
drops the record with an error log. -/
def invocation (st : LoaderState) (r : Rec) : LoaderState :=
  let p := wf_uuid_to_id st r.wf_uuid
  let q := get_job_instance_id p.1 r.wf_uuid r.exec_job_id
    r.job_submit_seq false
  match q.2 with
  | Option.none => logError q.1
  | some i =>
    let row : InvocationRow :=
      { wf_id := p.2, job_instance_id := some i,
        task_submit_seq := r.task_submit_seq }
    if q.1.batch then
      { q.1 with batchEvents := q.1.batchEvents ++ [BEvent.invE row] }
    else
      { q.1 with db :=
          { q.1.db with invocations := q.1.db.invocations ++ [row] } }

/-- `Analyzer.workflowstate` (lines 423-447): resolve the workflow id, map
the tag to `WORKFLOW_STARTED`/`WORKFLOW_TERMINATED` (any other tag raises
`KeyError` at the dict lookup), then write or buffer; in immediate mode a
termination event triggers `flushCaches` after the write. -/
def workflowstate (st : LoaderState) (r : Rec) : LoaderState × Option PyExc :=
  let p := wf_uuid_to_id st r.wf_uuid
  let lblOpt : Option String :=
    if r.event == "stampede.xwf.start" then some "WORKFLOW_STARTED"
    else if r.event == "stampede.xwf.end" then some "WORKFLOW_TERMINATED"
    else Option.none
  match lblOpt with
  | Option.none => (p.1, some PyExc.keyError)
  | some lbl =>
    let w : WorkflowstateRow :=
      { wf_id := p.2, state := lbl, timestamp := r.ts,
        wf_uuid := r.wf_uuid, event := r.event }
    if p.1.batch then
      ({ p.1 with batchEvents := p.1.batchEvents ++ [BEvent.wfsE w] },
       Option.none)
    else
      let st2 := { p.1 with
        db := { p.1.db with
          workflowstates := p.1.db.workflowstates ++ [w] } }
      if r.event == "stampede.xwf.end" then
        (flushCaches st2 r.wf_uuid p.2, Option.none)
      else (st2, Option.none)

/-- The uniqueness tuples of the rows currently in the host table, as
collected by the lazy seeding loop of `Analyzer.host` (lines 717-721). -/
def hostTuples (db : DB) : List (Option Int × String × String × String) :=
  db.hosts.map (fun h => (h.wf_id, h.site, h.hostname, h.ip))

/-- Lines 915-919 of `Analyzer.map_host_to_job_instance`: if the host
object has no id, query the host table by the uniqueness tuple; only
`MultipleResultsFound` is caught (and logged) there — zero matches raise
`NoResultFound` out of the handler. -/
def mhji_resolve_host_id (st : LoaderState) (h : HostObj) :
    LoaderState × Option Int × Option PyExc :=
  match h.host_id with
  | some hid => (st, some hid, Option.none)
  | Option.none =>
    match queryOne (st.db.hosts.filter (fun hr =>
        hr.wf_id == h.wf_id && hr.site == h.site &&
        hr.hostname == h.hostname && hr.ip == h.ip)) with
    | Except.ok hr => (st, some hr.host_id, Option.none)
    | Except.error QErr.multiple => (logError st, Option.none, Option.none)
    | Except.error QErr.noResult =>
      (st, Option.none, some PyExc.noResultFound)

/-- Lines 920-923 of `Analyzer.map_host_to_job_instance`: load the
job-instance row with an *unguarded* `.one()` — zero or multiple matches
raise out of the method — set its `host_id`, merge, and mark
`host_cache`. -/
def mhji_update (st : LoaderState) (jobid : Option Int)
    (key : PyVal × PyVal) (hid : Option Int) (h : HostObj) :
    LoaderState × Option PyExc :=
  match queryOne (st.db.job_instances.filter (fun ji =>
      ji.job_id == jobid && ji.job_submit_seq == h.job_submit_seq)) with
  | Except.error QErr.noResult => (st, some PyExc.noResultFound)
  | Except.error QErr.multiple => (st, some PyExc.multipleResultsFound)
  | Except.ok ji =>
    let db2 := { st.db with
      job_instances := st.db.job_instances.map (fun x =>
        if x.job_instance_id == ji.job_instance_id then
          { x with host_id := hid }
        else x) }
    ({ st with
        db := db2,
        host_cache := assocSet st.host_cache key true }, Option.none)

/-- `Analyzer.map_host_to_job_instance` (lines 900-923): skip entirely if
the `(job_id, job_submit_seq)` pair is already in `host_cache`; otherwise
resolve the host id and perform the job-instance update via the two
helpers above. -/
def map_host_to_job_instance (st : LoaderState) (h : HostObj) :
    LoaderState × Option PyExc :=
  let p := wf_uuid_to_id st h.wf_uuid
  let q := get_job_id p.1 p.2 h.exec_job_id
  let key := (pvOfOptInt q.2, PyVal.int h.job_submit_seq)
  match assocGet q.1.host_cache key with
  | some _ => (q.1, Option.none)
  | Option.none =>
    let hres := mhji_resolve_host_id q.1 h
    match hres.2.2 with
    | some e => (hres.1, some e)
    | Option.none => mhji_update hres.1 q.2 key hres.2.1 h

/-- `Analyzer.host` (lines 706-737): lazily seed `hosts_written_cache`
from the store on first use; resolve the workflow-root id; write or buffer
a `Host` row only when the `(wf_id, site, hostname, ip)` tuple is new,
recording the tuple in the de-duplication set; then always perform (or
queue) the host-to-job-instance mapping. -/
def host (st : LoaderState) (r : Rec) : LoaderState × Option PyExc :=
  let st0 :=
    match st.hosts_written_cache with
    | some _ => st
    | Option.none => { st with hosts_written_cache := some (hostTuples st.db) }
  let p := wf_uuid_to_root_id st0 r.wf_uuid
  let h0 : HostObj :=
    { host_id := Option.none, wf_uuid := r.wf_uuid, wf_id := p.2,
      site := r.site, hostname := r.hostname, ip := r.ip,
      exec_job_id := r.exec_job_id, job_submit_seq := r.job_submit_seq }
  let tup := (h0.wf_id, h0.site, h0.hostname, h0.ip)
  let c := p.1.hosts_written_cache.getD []
  let step : LoaderState × HostObj :=
    if c.contains tup then (p.1, h0)
    else
      let st2 := { p.1 with hosts_written_cache := some (c ++ [tup]) }
      if st2.batch then
        ({ st2 with batchEvents := st2.batchEvents ++ [BEvent.hostE h0] }, h0)
      else
        let d := DB.insertHost st2.db h0
        ({ st2 with db := d.1 }, { h0 with host_id := some d.2 })
  if step.1.batch then
    ({ step.1 with hostMapEvents := step.1.hostMapEvents ++ [step.2] },
     Option.none)
  else map_host_to_job_instance step.1 step.2

/-- Applying one buffered insert at flush time (`session.add` plus the
batch commit): plain rows are appended, keyed rows get their autoincrement
surrogate assigned. -/
def applyBEvent (db : DB) : BEvent → DB
  | BEvent.wfsE w => { db with workflowstates := db.workflowstates ++ [w] }
  | BEvent.jobE j => (DB.insertJob db j).1
  | BEvent.jobEdgeE e => { db with job_edges := db.job_edges ++ [e] }
  | BEvent.taskE t => { db with tasks := db.tasks ++ [t] }
  | BEvent.taskEdgeE e => { db with task_edges := db.task_edges ++ [e] }
  | BEvent.jsE s => { db with jobstates := db.jobstates ++ [s] }
  | BEvent.invE i => { db with invocations := db.invocations ++ [i] }
  | BEvent.hostE h => (DB.insertHost db h).1

/-- `Analyzer.hard_flush` (lines 296-364) on the loader state, along its
success path: drain the insert buffer into the store, apply the buffered
job-instance updates, replay the queued host mappings (an exception there
escapes mid-way, leaving the buffers uncleared, as in the source), run
`flushCaches` for every buffered `stampede.xwf.end` row, and clear the
buffers.  The constraint-violation fallback of the commit itself is
modelled by `hard_flush_inserts` above. -/
def hard_flush (st : LoaderState) : LoaderState × Option PyExc :=
  if !st.batch then (st, Option.none)
  else
    let endEvents := st.batchEvents.filter (fun e =>
      match e with
      | BEvent.wfsE w => w.event == "stampede.xwf.end"
      | _ => false)
    let db1 := st.batchEvents.foldl applyBEvent st.db
    let db2 := st.updateEvents.foldl
      (fun d pr => DB.mergeJobInstance d pr.1 pr.2) db1
    let st1 := { st with db := db2 }
    let mapped := st1.hostMapEvents.foldl
      (fun acc h =>
        match acc.2 with
        | some _ => acc
        | Option.none => map_host_to_job_instance acc.1 h)
      ((st1, Option.none) : LoaderState × Option PyExc)
    match mapped.2 with
    | some e => (mapped.1, some e)
    | Option.none =>
      let st2 := endEvents.foldl (fun s ev =>
        match ev with
        | BEvent.wfsE w => flushCaches s w.wf_uuid w.wf_id
        | _ => s) mapped.1
      ({ st2 with
          batchEvents := [],
          updateEvents := [],
          hostMapEvents := [] }, Option.none)

/-- `Analyzer.task_edge` (lines 618-637): on the first task-edge event of
a workflow force a flush (in batch mode) and mark the workflow; then the
same unchecked resolve-and-write pattern as `job`. -/
def task_edge (st : LoaderState) (r : Rec) : LoaderState × Option PyExc :=
  let fl : LoaderState × Option PyExc :=
    match assocGet st.task_edge_flush (PyVal.str r.wf_uuid) with
    | some _ => (st, Option.none)
    | Option.none =>
      let f := if st.batch then hard_flush st else (st, Option.none)
      match f.2 with
      | some e => (f.1, some e)
      | Option.none =>
        ({ f.1 with task_edge_flush :=
            assocSet f.1.task_edge_flush (PyVal.str r.wf_uuid) true },
         Option.none)
  match fl.2 with
  | some e => (fl.1, some e)
  | Option.none =>
    let p := wf_uuid_to_id fl.1 r.wf_uuid
    let row : TaskEdgeRow :=
      { wf_id := p.2, parent_abs_task_id := r.parent_abs_task_id,
        child_abs_task_id := r.child_abs_task_id }
    if p.1.batch then
      ({ p.1 with batchEvents := p.1.batchEvents ++ [BEvent.taskEdgeE row] },
       Option.none)
    else
      ({ p.1 with db :=
          { p.1.db with task_edges := p.1.db.task_edges ++ [row] } },
       Option.none)

/-- `Analyzer.task_map` (lines 639-675): flush once per workflow so the
batched rows being updated are in the store; resolve workflow and job
(dropping with an error log on failure); load the task row by
`(wf_id, abs_task_id)` — zero or multiple matches are caught, logged and
skipped — and set its `job_id`.  The session-pending update is conflated
with the committed store in this model. -/
def task_map (st : LoaderState) (r : Rec) : LoaderState × Option PyExc :=
  let fl : LoaderState × Option PyExc :=
    match assocGet st.task_map_flush (PyVal.str r.wf_uuid) with
    | some _ => (st, Option.none)
    | Option.none =>
      let f := if st.batch then hard_flush st else (st, Option.none)
      match f.2 with
      | some e => (f.1, some e)
      | Option.none =>
        ({ f.1 with task_map_flush :=
            assocSet f.1.task_map_flush (PyVal.str r.wf_uuid) true },
         Option.none)
  match fl.2 with
  | some e => (fl.1, some e)
  | Option.none =>
    let p := wf_uuid_to_id fl.1 r.wf_uuid
    let q := get_job_id p.1 p.2 r.exec_job_id
    match q.2 with
    | Option.none => (logError q.1, Option.none)
    | some jobid =>
      match queryOne (q.1.db.tasks.filter (fun t =>
          t.wf_id == p.2 && t.abs_task_id == r.abs_task_id)) with
      | Except.error _ => (logError q.1, Option.none)
      | Except.ok t =>
        let newTasks := q.1.db.tasks.map (fun x =>
          if x.wf_id == t.wf_id && x.abs_task_id == t.abs_task_id then
            { x with job_id := some jobid }
          else x)
        ({ q.1 with db := { q.1.db with tasks := newTasks } }, Option.none)

/-- `Analyzer.subwf_map` (lines 677-704): resolve the workflow, the
sub-workflow and the job; load the job-instance row by
`(job_id, job_submit_seq)` — zero or multiple matches are caught, logged
and skipped — and set its `subwf_id`. -/
def subwf_map (st : LoaderState) (r : Rec) : LoaderState × Option PyExc :=
  let p := wf_uuid_to_id st r.wf_uuid
  let s := wf_uuid_to_id p.1 r.subwf_uuid
  let q := get_job_id s.1 p.2 r.exec_job_id
  match queryOne (q.1.db.job_instances.filter (fun ji =>
      ji.job_id == q.2 && ji.job_submit_seq == r.job_submit_seq)) with
  | Except.error _ => (logError q.1, Option.none)
  | Except.ok ji =>
    let newJis := q.1.db.job_instances.map (fun x =>
      if x.job_instance_id == ji.job_instance_id then
        { x with subwf_id := s.2 }
      else x)
    ({ q.1 with db := { q.1.db with job_instances := newJis } }, Option.none)

/-- `Analyzer.static_end` (lines 739-749): force a flush in batch mode. -/
def static_end (st : LoaderState) (_ : Rec) : LoaderState × Option PyExc :=
  if st.batch then hard_flush st else (st, Option.none)

/-- `Analyzer.noop` (lines 751-758). -/
def noop (st : LoaderState) (_ : Rec) : LoaderState :=
  st

/-- A `Workflow` mapper object across its two commits. -/
structure WorkflowObj where
  wf_id : Option Int
  wf_uuid : String
  root_xwf_id : String
  root_wf_id : Option Int
  parent_wf_id : Option Int
  timestamp : Int
  planner_arguments : PyVal
deriving DecidableEq, Repr

/-- Modelled from the spec: `commit_to_db` for a `Workflow` (schema module
not under `src/`): the first commit inserts the row and assigns the
surrogate key onto the object; a second commit of the now-keyed object
updates its row in place. -/
def commitWorkflow (db : DB) (w : WorkflowObj) : DB × WorkflowObj :=
  match w.wf_id with
  | Option.none =>
    let i := db.nextId
    ({ db with
      workflows := db.workflows ++
        [{ wf_id := i, wf_uuid := w.wf_uuid, root_wf_id := w.root_wf_id,
           parent_wf_id := w.parent_wf_id }],
      nextId := db.nextId + 1 },
   { w with wf_id := some i })
  | some i =>
    ({ db with workflows := db.workflows.map (fun row =>
        if row.wf_id == i then
          { row with
              root_wf_id := w.root_wf_id,
              parent_wf_id := w.parent_wf_id }
        else row) }, w)

/-- `Analyzer.workflow` (lines 393-421): resolve the root (for
sub-workflows) and parent ids, commit the row synchronously whatever the
batching mode, and for a root workflow resolve its own freshly assigned id
and commit a second time to set it as `root_wf_id`; warn if the root id
could not be determined. -/
def workflow (st : LoaderState) (r : Rec) : LoaderState :=
  let w0 : WorkflowObj :=
    { wf_id := Option.none, wf_uuid := r.wf_uuid,
      root_xwf_id := r.root_xwf_id, root_wf_id := Option.none,
      parent_wf_id := Option.none, timestamp := r.ts,
      planner_arguments := r.argv }
  let is_root := r.root_xwf_id == r.wf_uuid
  let a : LoaderState × WorkflowObj :=
    if is_root then (st, w0)
    else
      let p := wf_uuid_to_id st r.root_xwf_id
      (p.1, { w0 with root_wf_id := p.2 })
  let b : LoaderState × WorkflowObj :=
    match r.parent_wf_uuid with
    | Option.none => a
    | some pu =>
      let p := wf_uuid_to_id a.1 pu
      (p.1, { a.2 with parent_wf_id := p.2 })
  let c0 := commitWorkflow b.1.db b.2
  let st1 := { b.1 with db := c0.1 }
  let d : LoaderState × WorkflowObj :=
    if is_root then
      let p := wf_uuid_to_id st1 r.root_xwf_id
      let c1 := commitWorkflow p.1.db { c0.2 with root_wf_id := p.2 }
      ({ p.1 with db := c1.1 }, c1.2)
    else (st1, c0.2)
  if d.2.root_wf_id == (Option.none : Option Int) then logError d.1 else d.1

/-! ## Helper lemmas about the state operations -/

@[simp] theorem logError_db (st : LoaderState) : (logError st).db = st.db := rfl

@[simp] theorem logError_batch (st : LoaderState) :
    (logError st).batch = st.batch := rfl

@[simp] theorem logError_wf_id_cache (st : LoaderState) :
    (logError st).wf_id_cache = st.wf_id_cache := rfl

@[simp] theorem logError_root_wf_id_cache (st : LoaderState) :
    (logError st).root_wf_id_cache = st.root_wf_id_cache := rfl

@[simp] theorem logError_job_id_cache (st : LoaderState) :
    (logError st).job_id_cache = st.job_id_cache := rfl

@[simp] theorem logError_job_instance_id_cache (st : LoaderState) :
    (logError st).job_instance_id_cache = st.job_instance_id_cache := rfl

@[simp] theorem logError_host_cache (st : LoaderState) :
    (logError st).host_cache = st.host_cache := rfl

@[simp] theorem logError_hosts_written_cache (st : LoaderState) :
    (logError st).hosts_written_cache = st.hosts_written_cache := rfl

@[simp] theorem logError_task_map_flush (st : LoaderState) :
    (logError st).task_map_flush = st.task_map_flush := rfl

@[simp] theorem logError_task_edge_flush (st : LoaderState) :
    (logError st).task_edge_flush = st.task_edge_flush := rfl

@[simp] theorem logError_batchEvents (st : LoaderState) :
    (logError st).batchEvents = st.batchEvents := rfl

@[simp] theorem logError_updateEvents (st : LoaderState) :
    (logError st).updateEvents = st.updateEvents := rfl

@[simp] theorem logError_hostMapEvents (st : LoaderState) :
    (logError st).hostMapEvents = st.hostMapEvents := rfl

@[simp] theorem logError_errorLogs (st : LoaderState) :
    (logError st).errorLogs = st.errorLogs + 1 := rfl

theorem wf_uuid_to_id_fail (st : LoaderState) (u : String)
    (hc : assocGet st.wf_id_cache (PyVal.str u) = Option.none)
    (hq : st.db.workflows.filter (fun w => w.wf_uuid == u) = []) :
    wf_uuid_to_id st u = (logError st, Option.none) := by
  unfold wf_uuid_to_id
  rw [hc, hq]
  rfl

theorem get_job_id_fail (st : LoaderState) (wf_id : Option Int) (e : String)
    (hc : assocGet st.job_id_cache (pvOfOptInt wf_id, PyVal.str e) =
      Option.none)
    (hq : st.db.jobs.filter
      (fun j => j.wf_id == wf_id && j.exec_job_id == e) = []) :
    get_job_id st wf_id e = (logError st, Option.none) := by
  simp only [get_job_id]
  rw [hc, hq]
  rfl

theorem get_job_instance_id_fail_all (st : LoaderState) (u e : String)
    (seq : Int)
    (hwc : assocGet st.wf_id_cache (PyVal.str u) = Option.none)
    (hwq : st.db.workflows.filter (fun w => w.wf_uuid == u) = [])
    (hjc : assocGet st.job_id_cache (PyVal.none, PyVal.str e) = Option.none)
    (hjq : st.db.jobs.filter (fun j =>
      j.wf_id == (Option.none : Option Int) && j.exec_job_id == e) = [])
    (hic : assocGet st.job_instance_id_cache
      (PyVal.none, PyVal.int seq) = Option.none)
    (hiq : st.db.job_instances.filter (fun ji =>
      ji.job_id == (Option.none : Option Int) &&
      ji.job_submit_seq == seq) = []) :
    get_job_instance_id st u e seq false =
      (logError (logError (logError st)), Option.none) := by
  have h1 := wf_uuid_to_id_fail st u hwc hwq
  have h2 : get_job_id (logError st) Option.none e =
      (logError (logError st), Option.none) := by
    apply get_job_id_fail
    · simpa using hjc
    · simpa using hjq
  unfold get_job_instance_id
  rw [h1]
  simp only []
  rw [h2]
  simp only []
  have hic2 : assocGet (logError (logError st)).job_instance_id_cache
      (pvOfOptInt Option.none, PyVal.int seq) = Option.none := by
    simpa using hic
  rw [hic2]
  have hiq2 : (logError (logError st)).db.job_instances.filter (fun ji =>
      ji.job_id == (Option.none : Option Int) &&
      ji.job_submit_seq == seq) = [] := by
    simpa using hiq
  rw [hiq2]
  rfl

/-! ## C8: an unguarded resolution failure escapes `process` -/

/-- A store holding workflow `u1` (id 1, its own root) and its job `j1`
(id 2), but no job-instance rows. -/
def c8db : DB :=
  { workflows :=
      [{ wf_id := 1, wf_uuid := "u1", root_wf_id := some 1,
         parent_wf_id := Option.none }],
    jobs :=
      [{ job_id := 2, wf_id := some 1, exec_job_id := "j1",
         clustered := PyVal.none }],
    nextId := 3 }

def c8state : LoaderState :=
  { batch := false, db := c8db }

/-- A `job_inst.host.info` record for a job instance that was never
inserted. -/
def c8rec : Rec :=
  { event := "stampede.job_inst.host.info", wf_uuid := "u1",
    exec_job_id := "j1", job_submit_seq := 1, site := "s",
    hostname := "h", ip := "i" }

/-- C8 fails on the code: a host event whose job instance is missing makes
`map_host_to_job_instance` hit its unguarded `.one()` (line 920), raising
`NoResultFound`, which none of `process`'s `except` clauses
(`KeyError`/`IntegrityError`/`OperationalError`) catch — so the exception
escapes `process` even though the connection is healthy.  The `Host` row
itself was already committed before the raise. -/
theorem C8_host_mapping_noresult_escapes :
    (host c8state c8rec).2 = some PyExc.noResultFound ∧
    processCatches PyExc.noResultFound = false ∧
    (host c8state c8rec).1.db.hosts =
      [{ host_id := 3, wf_id := some 1, site := "s", hostname := "h",
         ip := "i" }] := by
  decide

/-! ## C1: resolve-before-write -/

/-- A batched loader whose store knows nothing, with the task-edge flush
marker set for the incoming workflow. -/
def c1state : LoaderState :=
  { batch := true }

def c1rec : Rec :=
  { event := "stampede.job.info", wf_uuid := "u-unknown",
    exec_job_id := "j1" }

/-- C1 fails on the code: a `job.info` record whose workflow was never
observed logs a resolution error but is *not* dropped — the `Job` row is
still queued for insertion with a null `wf_id`. -/
theorem C1_counterexample :
    (job c1state c1rec).batchEvents =
      [BEvent.jobE
        { job_id := 0, wf_id := Option.none,
          exec_job_id := "j1", clustered := PyVal.none }] ∧
    (job c1state c1rec).errorLogs = 1 := by
  decide

/-- C1 (amended): when the parent is unresolvable, `job_instance` and
`invocation` records are dropped with logged resolution errors and write
nothing; but `job`, `job_edge`, `task` and `task_edge` records are *not*
dropped — the resolution failure is logged and the row is still written
(or queued) with a null workflow key. -/
theorem C1_resolve_before_write (st : LoaderState) (r : Rec)
    (hwc : assocGet st.wf_id_cache (PyVal.str r.wf_uuid) = Option.none)
    (hwq : st.db.workflows.filter (fun w => w.wf_uuid == r.wf_uuid) = [])
    (hjc : assocGet st.job_id_cache
      (PyVal.none, PyVal.str r.exec_job_id) = Option.none)
    (hjq : st.db.jobs.filter (fun j =>
      j.wf_id == (Option.none : Option Int) &&
      j.exec_job_id == r.exec_job_id) = [])
    (hic : assocGet st.job_instance_id_cache
      (PyVal.none, PyVal.int r.job_submit_seq) = Option.none)
    (hiq : st.db.job_instances.filter (fun ji =>
      ji.job_id == (Option.none : Option Int) &&
      ji.job_submit_seq == r.job_submit_seq) = [])
    (hte : assocGet st.task_edge_flush (PyVal.str r.wf_uuid) = some true) :
    ((job_instance st r).1.db = st.db ∧
     (job_instance st r).1.batchEvents = st.batchEvents ∧
     (job_instance st r).1.updateEvents = st.updateEvents ∧
     st.errorLogs < (job_instance st r).1.errorLogs ∧
     (job_instance st r).2 = Option.none) ∧
    ((invocation st r).db = st.db ∧
     (invocation st r).batchEvents = st.batchEvents ∧
     st.errorLogs < (invocation st r).errorLogs) ∧
    (st.batch = true →
      (job st r).batchEvents = st.batchEvents ++
        [BEvent.jobE
          { job_id := 0, wf_id := Option.none,
            exec_job_id := r.exec_job_id, clustered := r.clustered }] ∧
      (job_edge st r).batchEvents = st.batchEvents ++
        [BEvent.jobEdgeE
          { wf_id := Option.none,
            parent_exec_job_id := r.parent_exec_job_id,
            child_exec_job_id := r.child_exec_job_id }] ∧
      (task st r).batchEvents = st.batchEvents ++
        [BEvent.taskE
          { wf_id := Option.none, abs_task_id := r.abs_task_id,
            job_id := Option.none }] ∧
      (task_edge st r).1.batchEvents = st.batchEvents ++
        [BEvent.taskEdgeE
          { wf_id := Option.none,
            parent_abs_task_id := r.parent_abs_task_id,
            child_abs_task_id := r.child_abs_task_id }]) ∧
    (st.batch = false →
      (job st r).db.jobs = st.db.jobs ++
        [{ job_id := st.db.nextId, wf_id := Option.none,
           exec_job_id := r.exec_job_id, clustered := r.clustered }] ∧
      (job_edge st r).db.job_edges = st.db.job_edges ++
        [{ wf_id := Option.none,
           parent_exec_job_id := r.parent_exec_job_id,
           child_exec_job_id := r.child_exec_job_id }] ∧
      (task st r).db.tasks = st.db.tasks ++
        [{ wf_id := Option.none, abs_task_id := r.abs_task_id,
           job_id := Option.none }] ∧
      (task_edge st r).1.db.task_edges = st.db.task_edges ++
        [{ wf_id := Option.none,
           parent_abs_task_id := r.parent_abs_task_id,
           child_abs_task_id := r.child_abs_task_id }]) := by
  have h1 := wf_uuid_to_id_fail st r.wf_uuid hwc hwq
  have h3 := get_job_instance_id_fail_all st r.wf_uuid r.exec_job_id
    r.job_submit_seq hwc hwq hjc hjq hic hiq
  refine ⟨?_, ?_, ?_, ?_⟩
  · unfold job_instance
    rw [h1]
    simp
    omega
  · unfold invocation
    rw [h1]
    simp only []
    have h3b : get_job_instance_id (logError st) r.wf_uuid r.exec_job_id
        r.job_submit_seq false =
        (logError (logError (logError (logError st))), Option.none) := by
      exact get_job_instance_id_fail_all (logError st) r.wf_uuid
        r.exec_job_id r.job_submit_seq hwc hwq hjc hjq hic hiq
    rw [h3b]
    simp [logError]
    omega
  · intro hb
    refine ⟨?_, ?_, ?_, ?_⟩
    · unfold job
      rw [h1]
      simp [hb]
    · unfold job_edge
      rw [h1]
      simp [hb]
    · unfold task
      rw [h1]
      simp [hb]
    · unfold task_edge
      rw [hte]
      simp only []
      rw [h1]
      simp [hb]
  · intro hb
    refine ⟨?_, ?_, ?_, ?_⟩
    · unfold job
      rw [h1]
      simp [hb, DB.insertJob]
    · unfold job_edge
      rw [h1]
      simp [hb]
    · unfold task
      rw [h1]
      simp [hb]
    · unfold task_edge
      rw [hte]
      simp only []
      rw [h1]
      simp [hb]

/-- The `C1_resolve_before_write` scenario at a concrete state. -/
def c1wstate : LoaderState :=
  { batch := true,
    task_edge_flush := [(PyVal.str "u-unknown", true)] }

/-- Witness for `C1_resolve_before_write`. -/
theorem C1_resolve_before_write_witness :
    (job_instance c1wstate c1rec).1.db = c1wstate.db ∧
    (job c1wstate c1rec).batchEvents = c1wstate.batchEvents ++
      [BEvent.jobE
        { job_id := 0, wf_id := Option.none,
          exec_job_id := c1rec.exec_job_id,
          clustered := c1rec.clustered }] := by
  have h := C1_resolve_before_write c1wstate c1rec rfl rfl rfl rfl rfl rfl rfl
  exact ⟨h.1.1, (h.2.2.1 rfl).1⟩

/-! ## C7: workflows are written synchronously; roots self-reference -/

theorem workflows_map_fresh (l : List WorkflowRow) (i : Int)
    (rt pt : Option Int)
    (h : ∀ x ∈ l, x.wf_id ≠ i) :
    l.map (fun row => if row.wf_id == i then
      { row with root_wf_id := rt, parent_wf_id := pt } else row) = l := by
  induction l with
  | nil => rfl
  | cons a rest ih =>
    have ha : (a.wf_id == i) = false := by
      simp [h a (List.mem_cons_self a rest)]
    simp only [List.map_cons, ha, Bool.false_eq_true, if_false]
    rw [ih (fun x hx => h x (List.mem_cons_of_mem a hx))]

theorem warnIf_frame (c : Bool) (st : LoaderState) :
    (if c = true then logError st else st).db = st.db ∧
    (if c = true then logError st else st).batchEvents = st.batchEvents ∧
    (if c = true then logError st else st).updateEvents = st.updateEvents ∧
    (if c = true then logError st else st).hostMapEvents =
      st.hostMapEvents := by
  cases c <;> simp [logError]

theorem wf_uuid_to_id_buffers (st : LoaderState) (u : String) :
    (wf_uuid_to_id st u).1.db = st.db ∧
    (wf_uuid_to_id st u).1.batchEvents = st.batchEvents ∧
    (wf_uuid_to_id st u).1.updateEvents = st.updateEvents ∧
    (wf_uuid_to_id st u).1.hostMapEvents = st.hostMapEvents := by
  unfold wf_uuid_to_id
  rcases hA : assocGet st.wf_id_cache (PyVal.str u) with _ | v
  · rcases hB : queryOne (st.db.workflows.filter (fun w => w.wf_uuid == u))
      with e | w
    · simp [hB]
    · simp [hB]
  · simp

/-- Every branch of `Analyzer.workflow` — root or sub-workflow, with or
without a declared parent, resolvable or not — commits exactly one new
workflow row straight to the store and never touches any of the three
batch buffers. -/
theorem workflow_writes_synchronously (st : LoaderState) (r : Rec) :
    (workflow st r).batchEvents = st.batchEvents ∧
    (workflow st r).updateEvents = st.updateEvents ∧
    (workflow st r).hostMapEvents = st.hostMapEvents ∧
    (workflow st r).db.workflows.length = st.db.workflows.length + 1 := by
  unfold workflow
  rcases hir : (r.root_xwf_id == r.wf_uuid) with _ | _
  · rcases hp : r.parent_wf_uuid with _ | pu
    · obtain ⟨hb1, hb2, hb3, hb4⟩ := wf_uuid_to_id_buffers st r.root_xwf_id
      simp only [hir, Bool.false_eq_true, if_false, hp, commitWorkflow]
      refine ⟨?_, ?_, ?_, ?_⟩
      · rw [(warnIf_frame _ _).2.1]
        simp [hb2]
      · rw [(warnIf_frame _ _).2.2.1]
        simp [hb3]
      · rw [(warnIf_frame _ _).2.2.2]
        simp [hb4]
      · rw [(warnIf_frame _ _).1]
        simp [hb1]
    · obtain ⟨hb1, hb2, hb3, hb4⟩ := wf_uuid_to_id_buffers st r.root_xwf_id
      obtain ⟨hc1, hc2, hc3, hc4⟩ := wf_uuid_to_id_buffers
        (wf_uuid_to_id st r.root_xwf_id).1 pu
      simp only [hir, Bool.false_eq_true, if_false, hp, commitWorkflow]
      refine ⟨?_, ?_, ?_, ?_⟩
      · rw [(warnIf_frame _ _).2.1]
        simp [hc2, hb2]
      · rw [(warnIf_frame _ _).2.2.1]
        simp [hc3, hb3]
      · rw [(warnIf_frame _ _).2.2.2]
        simp [hc4, hb4]
      · rw [(warnIf_frame _ _).1]
        simp [hc1, hb1]
  · rcases hp : r.parent_wf_uuid with _ | pu
    · simp only [hir, if_true, hp, commitWorkflow]
      refine ⟨?_, ?_, ?_, ?_⟩
      · rw [(warnIf_frame _ _).2.1]
        dsimp only
        rw [(wf_uuid_to_id_buffers _ _).2.1]
      · rw [(warnIf_frame _ _).2.2.1]
        dsimp only
        rw [(wf_uuid_to_id_buffers _ _).2.2.1]
      · rw [(warnIf_frame _ _).2.2.2]
        dsimp only
        rw [(wf_uuid_to_id_buffers _ _).2.2.2]
      · rw [(warnIf_frame _ _).1]
        dsimp only
        rw [List.length_map, (wf_uuid_to_id_buffers _ _).1]
        simp
    · obtain ⟨hc1, hc2, hc3, hc4⟩ := wf_uuid_to_id_buffers st pu
      simp only [hir, if_true, hp, commitWorkflow]
      refine ⟨?_, ?_, ?_, ?_⟩
      · rw [(warnIf_frame _ _).2.1]
        dsimp only
        rw [(wf_uuid_to_id_buffers _ _).2.1]
        simp [hc2]
      · rw [(warnIf_frame _ _).2.2.1]
        dsimp only
        rw [(wf_uuid_to_id_buffers _ _).2.2.1]
        simp [hc3]
      · rw [(warnIf_frame _ _).2.2.2]
        dsimp only
        rw [(wf_uuid_to_id_buffers _ _).2.2.2]
        simp [hc4]
      · rw [(warnIf_frame _ _).1]
        dsimp only
        rw [List.length_map, (wf_uuid_to_id_buffers _ _).1]
        simp [hc1]

/-- C7: every workflow record — root or sub-workflow, with or without a
parent — is committed straight to the store whatever the batching mode:
exactly one workflow row is added and none of the three batch buffers
change; and a root workflow (its declared root UUID equals its own UUID)
ends up, after its second commit, as a row whose `root_wf_id` is its own
freshly assigned surrogate key. -/
theorem C7_workflow_sync_root :
    (∀ (st : LoaderState) (r : Rec),
      (workflow st r).batchEvents = st.batchEvents ∧
      (workflow st r).updateEvents = st.updateEvents ∧
      (workflow st r).hostMapEvents = st.hostMapEvents ∧
      (workflow st r).db.workflows.length = st.db.workflows.length + 1) ∧
    (∀ (st : LoaderState) (r : Rec),
      r.root_xwf_id = r.wf_uuid →
      r.parent_wf_uuid = Option.none →
      assocGet st.wf_id_cache (PyVal.str r.wf_uuid) = Option.none →
      st.db.workflows.filter (fun w => w.wf_uuid == r.wf_uuid) = [] →
      (∀ w ∈ st.db.workflows, w.wf_id ≠ st.db.nextId) →
      (workflow st r).db.workflows = st.db.workflows ++
        [{ wf_id := st.db.nextId, wf_uuid := r.wf_uuid,
           root_wf_id := some st.db.nextId,
           parent_wf_id := Option.none }] ∧
      (workflow st r).errorLogs = st.errorLogs) := by
  constructor
  · exact workflow_writes_synchronously
  · intro st r hroot hpar hc hq hfresh
    simp only [workflow, commitWorkflow, wf_uuid_to_id, hroot, hpar,
      beq_self_eq_true, if_true, hc, List.filter_append, hq,
      List.nil_append, List.filter_cons, List.filter_nil, queryOne,
      List.map_append, List.map_cons, List.map_nil]
    rw [workflows_map_fresh st.db.workflows st.db.nextId
      (some st.db.nextId) Option.none hfresh]
    simp

/-- Witness inputs for `C7_workflow_sync_root`: a root workflow plan event
on a fresh loader, and a batched sub-workflow plan event (declared root
and parent both `root1`) on a loader that already holds the root. -/
def c7rec : Rec :=
  { event := "stampede.wf.plan", wf_uuid := "w1", root_xwf_id := "w1" }

def c7state : LoaderState := {}

def c7subdb : DB :=
  { workflows :=
      [{ wf_id := 1, wf_uuid := "root1", root_wf_id := some 1,
         parent_wf_id := Option.none }],
    nextId := 2 }

def c7substate : LoaderState :=
  { batch := true, db := c7subdb }

def c7subrec : Rec :=
  { event := "stampede.wf.plan", wf_uuid := "sub1",
    root_xwf_id := "root1", parent_wf_uuid := some "root1" }

/-- Witness for `C7_workflow_sync_root`: the batched sub-workflow is
committed to the store (one new row, untouched buffers), and the root
workflow ends up self-referencing. -/
theorem C7_workflow_sync_root_witness :
    (workflow c7substate c7subrec).batchEvents = c7substate.batchEvents ∧
    (workflow c7substate c7subrec).db.workflows.length =
      c7substate.db.workflows.length + 1 ∧
    (workflow c7state c7rec).db.workflows = c7state.db.workflows ++
      [{ wf_id := c7state.db.nextId, wf_uuid := c7rec.wf_uuid,
         root_wf_id := some c7state.db.nextId,
         parent_wf_id := Option.none }] := by
  refine ⟨(C7_workflow_sync_root.1 c7substate c7subrec).1,
    (C7_workflow_sync_root.1 c7substate c7subrec).2.2.2,
    (C7_workflow_sync_root.2 c7state c7rec rfl rfl rfl rfl
      (by intro w hw; exact absurd hw (List.not_mem_nil w))).1⟩

/-! ## C6: host de-duplication -/

def tupleOfHostRow (h : HostRow) : Option Int × String × String × String :=
  (h.wf_id, h.site, h.hostname, h.ip)

/-- Number of `Host` rows in the store carrying the uniqueness tuple. -/
def countHostRows (hs : List HostRow)
    (t : Option Int × String × String × String) : Nat :=
  (hs.filter (fun h => tupleOfHostRow h == t)).length

/-- Number of buffered `Host` inserts carrying the uniqueness tuple. -/
def countHostEvents (es : List BEvent)
    (t : Option Int × String × String × String) : Nat :=
  (es.filter (fun e =>
    match e with
    | BEvent.hostE h => (h.wf_id, h.site, h.hostname, h.ip) == t
    | _ => false)).length

/-- Host rows persisted for a tuple: committed rows plus queued inserts. -/
def persistedHostCount (st : LoaderState)
    (t : Option Int × String × String × String) : Nat :=
  countHostRows st.db.hosts t + countHostEvents st.batchEvents t

/-- Processing a stream of host records. -/
def hostRun (st : LoaderState) : List Rec → LoaderState
  | [] => st
  | r :: rs => hostRun (host st r).1 rs

theorem assocGet_assocSet_self {α β : Type} [DecidableEq α]
    (l : List (α × β)) (k : α) (v : β) :
    assocGet (assocSet l k v) k = some v := by
  induction l with
  | nil => simp [assocGet, assocSet]
  | cons a rest ih =>
    by_cases h : a.1 = k
    · simp [assocGet, assocSet, h]
    · simp [assocGet, assocSet, h, ih]

theorem wf_uuid_to_root_id_hit (st : LoaderState) (u : String)
    (v : Option Int)
    (h : assocGet st.root_wf_id_cache (PyVal.str u) = some v) :
    wf_uuid_to_root_id st u = (st, v) := by
  unfold wf_uuid_to_root_id
  rw [h]

theorem wf_uuid_to_id_frame (st : LoaderState) (u : String) :
    (wf_uuid_to_id st u).1.db = st.db ∧
    (wf_uuid_to_id st u).1.root_wf_id_cache = st.root_wf_id_cache ∧
    (wf_uuid_to_id st u).1.hosts_written_cache = st.hosts_written_cache ∧
    (wf_uuid_to_id st u).1.batchEvents = st.batchEvents ∧
    (wf_uuid_to_id st u).1.batch = st.batch ∧
    (wf_uuid_to_id st u).1.hostMapEvents = st.hostMapEvents := by
  unfold wf_uuid_to_id
  rcases hA : assocGet st.wf_id_cache (PyVal.str u) with _ | v
  · rcases hB : queryOne (st.db.workflows.filter (fun w => w.wf_uuid == u))
      with e | w
    · simp [hB]
    · simp [hB]
  · simp

theorem get_job_id_frame (st : LoaderState) (wf_id : Option Int)
    (e : String) :
    (get_job_id st wf_id e).1.db = st.db ∧
    (get_job_id st wf_id e).1.root_wf_id_cache = st.root_wf_id_cache ∧
    (get_job_id st wf_id e).1.hosts_written_cache =
      st.hosts_written_cache ∧
    (get_job_id st wf_id e).1.batchEvents = st.batchEvents ∧
    (get_job_id st wf_id e).1.batch = st.batch ∧
    (get_job_id st wf_id e).1.hostMapEvents = st.hostMapEvents := by
  unfold get_job_id
  rcases hA : assocGet st.job_id_cache (pvOfOptInt wf_id, PyVal.str e)
    with _ | v
  · rcases hB : queryOne (st.db.jobs.filter
      (fun j => j.wf_id == wf_id && j.exec_job_id == e)) with er | j
    · simp [hA, hB]
    · simp [hA, hB]
  · simp [hA]

theorem mhji_resolve_frame (st : LoaderState) (h : HostObj) :
    (mhji_resolve_host_id st h).1.db = st.db ∧
    (mhji_resolve_host_id st h).1.root_wf_id_cache = st.root_wf_id_cache ∧
    (mhji_resolve_host_id st h).1.hosts_written_cache =
      st.hosts_written_cache ∧
    (mhji_resolve_host_id st h).1.batchEvents = st.batchEvents ∧
    (mhji_resolve_host_id st h).1.batch = st.batch ∧
    (mhji_resolve_host_id st h).1.hostMapEvents = st.hostMapEvents := by
  unfold mhji_resolve_host_id
  rcases hH : h.host_id with _ | hid
  · rcases hB : queryOne (st.db.hosts.filter (fun hr =>
        hr.wf_id == h.wf_id && hr.site == h.site &&
        hr.hostname == h.hostname && hr.ip == h.ip)) with er | hr
    · rcases er with _ | _ <;> simp [hB]
    · simp [hB]
  · simp

theorem mhji_update_frame (st : LoaderState) (jobid : Option Int)
    (key : PyVal × PyVal) (hid : Option Int) (h : HostObj) :
    (mhji_update st jobid key hid h).1.db.hosts = st.db.hosts ∧
    (mhji_update st jobid key hid h).1.db.workflows = st.db.workflows ∧
    (mhji_update st jobid key hid h).1.root_wf_id_cache =
      st.root_wf_id_cache ∧
    (mhji_update st jobid key hid h).1.hosts_written_cache =
      st.hosts_written_cache ∧
    (mhji_update st jobid key hid h).1.batchEvents = st.batchEvents ∧
    (mhji_update st jobid key hid h).1.batch = st.batch ∧
    (mhji_update st jobid key hid h).1.hostMapEvents = st.hostMapEvents := by
  unfold mhji_update
  rcases hC : queryOne (st.db.job_instances.filter (fun ji =>
      ji.job_id == jobid && ji.job_submit_seq == h.job_submit_seq))
    with er | ji
  · rcases er with _ | _ <;> simp [hC]
  · simp [hC]

theorem map_host_frame (st : LoaderState) (h : HostObj) :
    (map_host_to_job_instance st h).1.db.hosts = st.db.hosts ∧
    (map_host_to_job_instance st h).1.db.workflows = st.db.workflows ∧
    (map_host_to_job_instance st h).1.root_wf_id_cache =
      st.root_wf_id_cache ∧
    (map_host_to_job_instance st h).1.hosts_written_cache =
      st.hosts_written_cache ∧
    (map_host_to_job_instance st h).1.batchEvents = st.batchEvents ∧
    (map_host_to_job_instance st h).1.batch = st.batch ∧
    (map_host_to_job_instance st h).1.hostMapEvents = st.hostMapEvents := by
  obtain ⟨hj1, hj2, hj3, hj4, hj5, hj6⟩ := get_job_id_frame
    (wf_uuid_to_id st h.wf_uuid).1 (wf_uuid_to_id st h.wf_uuid).2
    h.exec_job_id
  obtain ⟨hw1, hw2, hw3, hw4, hw5, hw6⟩ := wf_uuid_to_id_frame st h.wf_uuid
  obtain ⟨hr1, hr2, hr3, hr4, hr5, hr6⟩ := mhji_resolve_frame
    (get_job_id (wf_uuid_to_id st h.wf_uuid).1
      (wf_uuid_to_id st h.wf_uuid).2 h.exec_job_id).1 h
  obtain ⟨hu1, hu2, hu3, hu4, hu5, hu6, hu7⟩ := mhji_update_frame
    (mhji_resolve_host_id (get_job_id (wf_uuid_to_id st h.wf_uuid).1
      (wf_uuid_to_id st h.wf_uuid).2 h.exec_job_id).1 h).1
    (get_job_id (wf_uuid_to_id st h.wf_uuid).1
      (wf_uuid_to_id st h.wf_uuid).2 h.exec_job_id).2
    (pvOfOptInt (get_job_id (wf_uuid_to_id st h.wf_uuid).1
      (wf_uuid_to_id st h.wf_uuid).2 h.exec_job_id).2,
     PyVal.int h.job_submit_seq)
    (mhji_resolve_host_id (get_job_id (wf_uuid_to_id st h.wf_uuid).1
      (wf_uuid_to_id st h.wf_uuid).2 h.exec_job_id).1 h).2.1 h
  unfold map_host_to_job_instance
  rcases hA : assocGet (get_job_id (wf_uuid_to_id st h.wf_uuid).1
      (wf_uuid_to_id st h.wf_uuid).2 h.exec_job_id).1.host_cache
      (pvOfOptInt (get_job_id (wf_uuid_to_id st h.wf_uuid).1
        (wf_uuid_to_id st h.wf_uuid).2 h.exec_job_id).2,
       PyVal.int h.job_submit_seq) with _ | v
  · simp only [hA]
    rcases hE : (mhji_resolve_host_id (get_job_id
        (wf_uuid_to_id st h.wf_uuid).1 (wf_uuid_to_id st h.wf_uuid).2
        h.exec_job_id).1 h).2.2 with _ | e
    · simp only [hE]
      refine ⟨?_, ?_, ?_, ?_, ?_, ?_, ?_⟩ <;> simp_all
    · simp only [hE]
      refine ⟨?_, ?_, ?_, ?_, ?_, ?_, ?_⟩ <;> simp_all
  · simp only [hA]
    refine ⟨?_, ?_, ?_, ?_, ?_, ?_, ?_⟩ <;> simp_all

theorem wf_uuid_to_root_id_found (st : LoaderState) (u : String)
    (w : WorkflowRow)
    (hc : assocGet st.root_wf_id_cache (PyVal.str u) = Option.none)
    (hq : st.db.workflows.filter (fun x => x.wf_uuid == u) = [w]) :
    wf_uuid_to_root_id st u =
      ({ st with root_wf_id_cache :=
          assocSet st.root_wf_id_cache (PyVal.str u) w.root_wf_id },
       w.root_wf_id) := by
  unfold wf_uuid_to_root_id
  rw [hc, hq]
  rfl

theorem countHostRows_append (hs : List HostRow) (row : HostRow)
    (t : Option Int × String × String × String) :
    countHostRows (hs ++ [row]) t =
      countHostRows hs t + (if tupleOfHostRow row == t then 1 else 0) := by
  unfold countHostRows
  rw [List.filter_append]
  rcases hr : (tupleOfHostRow row == t) with _ | _ <;>
    simp [List.filter_cons, hr]

theorem countHostEvents_append_host (es : List BEvent) (h0 : HostObj)
    (t : Option Int × String × String × String) :
    countHostEvents (es ++ [BEvent.hostE h0]) t =
      countHostEvents es t +
      (if ((h0.wf_id, h0.site, h0.hostname, h0.ip) == t) then 1 else 0) := by
  unfold countHostEvents
  rw [List.filter_append]
  rcases hr : ((h0.wf_id, h0.site, h0.hostname, h0.ip) == t) with _ | _ <;>
    simp [List.filter_cons, hr]

theorem not_mem_hostTuples_of_count_zero (hs : List HostRow)
    (t : Option Int × String × String × String)
    (h : countHostRows hs t = 0) :
    t ∉ hs.map (fun x => (x.wf_id, x.site, x.hostname, x.ip)) := by
  intro hmem
  rcases List.mem_map.mp hmem with ⟨row, hrow, hteq⟩
  unfold countHostRows at h
  rw [List.length_eq_zero] at h
  have h2 := List.filter_eq_nil_iff.mp h row hrow
  simp only [tupleOfHostRow] at h2
  rw [hteq] at h2
  simp at h2

/-- The invariant maintained while a fixed host tuple `t` of workflow `u`
streams through `Analyzer.host`: the workflow row is unique, the root id
is cached, the de-duplication set knows `t` (and everything it was seeded
with), and exactly one `Host` row for `t` has been persisted or queued. -/
def C6Inv (st : LoaderState) (u : String) (w : WorkflowRow)
    (t : Option Int × String × String × String)
    (c0 : List (Option Int × String × String × String)) : Prop :=
  st.db.workflows.filter (fun x => x.wf_uuid == u) = [w] ∧
  assocGet st.root_wf_id_cache (PyVal.str u) = some w.root_wf_id ∧
  (∃ c, st.hosts_written_cache = some c ∧ t ∈ c ∧ ∀ x ∈ c0, x ∈ c) ∧
  persistedHostCount st t = 1

theorem host_step_maintains (st : LoaderState) (r : Rec) (u : String)
    (w : WorkflowRow) (t : Option Int × String × String × String)
    (c0 : List (Option Int × String × String × String))
    (hru : r.wf_uuid = u)
    (ht : t = (w.root_wf_id, r.site, r.hostname, r.ip))
    (hInv : C6Inv st u w t c0) :
    C6Inv (host st r).1 u w t c0 ∧
    (host st r).1.batch = st.batch ∧
    (host st r).1.hostMapEvents.length =
      st.hostMapEvents.length + (if st.batch then 1 else 0) := by
  obtain ⟨hwf, hroot, ⟨c, hcsome, htc, hsup⟩, hcount⟩ := hInv
  subst hru
  subst ht
  have hhit := wf_uuid_to_root_id_hit st r.wf_uuid w.root_wf_id hroot
  have hcon : (c.contains (w.root_wf_id, r.site, r.hostname, r.ip)) =
      true := by
    simpa using htc
  unfold host
  rw [hcsome]
  simp only [hhit, Option.getD_some]
  rw [hcsome]
  simp only [Option.getD_some, hcon, if_true]
  rcases hb : st.batch with _ | _
  · simp only [hb, Bool.false_eq_true, if_false]
    obtain ⟨hm1, hm2, hm3, hm4, hm5, hm6, hm7⟩ := map_host_frame st
      { host_id := Option.none, wf_uuid := r.wf_uuid,
        wf_id := w.root_wf_id, site := r.site, hostname := r.hostname,
        ip := r.ip, exec_job_id := r.exec_job_id,
        job_submit_seq := r.job_submit_seq }
    refine ⟨⟨?_, ?_, ⟨c, ?_, htc, hsup⟩, ?_⟩, ?_, ?_⟩
    · rw [hm2]; exact hwf
    · rw [hm3]; exact hroot
    · rw [hm4]; exact hcsome
    · unfold persistedHostCount at hcount ⊢
      rw [hm1, hm5]; exact hcount
    · rw [hm6]; exact hb
    · rw [hm7]; simp
  · simp only [hb, if_true]
    refine ⟨⟨hwf, hroot, ⟨c, hcsome, htc, hsup⟩, ?_⟩, by simp [hb], by simp⟩
    unfold persistedHostCount at hcount ⊢
    exact hcount

theorem host_step_seeds (st : LoaderState) (r : Rec) (u : String)
    (w : WorkflowRow) (t : Option Int × String × String × String)
    (hru : r.wf_uuid = u)
    (ht : t = (w.root_wf_id, r.site, r.hostname, r.ip))
    (hwf : st.db.workflows.filter (fun x => x.wf_uuid == u) = [w])
    (hrc : assocGet st.root_wf_id_cache (PyVal.str u) = Option.none)
    (hhw : st.hosts_written_cache = Option.none)
    (hcount : persistedHostCount st t = 0) :
    C6Inv (host st r).1 u w t (hostTuples st.db) ∧
    (host st r).1.batch = st.batch ∧
    (host st r).1.hostMapEvents.length =
      st.hostMapEvents.length + (if st.batch then 1 else 0) := by
  subst hru
  subst ht
  have hrows : countHostRows st.db.hosts
      (w.root_wf_id, r.site, r.hostname, r.ip) = 0 := by
    unfold persistedHostCount at hcount
    omega
  have hevs : countHostEvents st.batchEvents
      (w.root_wf_id, r.site, r.hostname, r.ip) = 0 := by
    unfold persistedHostCount at hcount
    omega
  have hnot := not_mem_hostTuples_of_count_zero st.db.hosts
    (w.root_wf_id, r.site, r.hostname, r.ip) hrows
  have hcon : ((hostTuples st.db).contains
      (w.root_wf_id, r.site, r.hostname, r.ip)) = false := by
    unfold hostTuples
    rcases hcc : (st.db.hosts.map
        (fun x => (x.wf_id, x.site, x.hostname, x.ip))).contains
        (w.root_wf_id, r.site, r.hostname, r.ip) with _ | _
    · exact hcc
    · exact absurd (by simpa using hcc) hnot
  have hfound := wf_uuid_to_root_id_found
    ({ st with hosts_written_cache := some (hostTuples st.db) })
    r.wf_uuid w (by simpa using hrc) (by simpa using hwf)
  unfold host
  rw [hhw]
  simp only [hfound]
  dsimp only [Option.getD]
  rw [hcon]
  simp only [Bool.false_eq_true, if_false]
  rcases hb : st.batch with _ | _
  · simp only [hb, Bool.false_eq_true, if_false]
    refine ⟨⟨?_, ?_, ⟨hostTuples st.db ++
        [(w.root_wf_id, r.site, r.hostname, r.ip)], ?_, ?_, ?_⟩, ?_⟩,
      ?_, ?_⟩
    · rw [(map_host_frame _ _).2.1]
      simpa [DB.insertHost] using hwf
    · rw [(map_host_frame _ _).2.2.1]
      simp [assocGet_assocSet_self]
    · rw [(map_host_frame _ _).2.2.2.1]
    · simp
    · intro x hx
      exact List.mem_append_left _ hx
    · unfold persistedHostCount
      rw [(map_host_frame _ _).1, (map_host_frame _ _).2.2.2.2.1]
      simp only [DB.insertHost]
      rw [countHostRows_append]
      simp [tupleOfHostRow, hrows, hevs]
    · rw [(map_host_frame _ _).2.2.2.2.2.1]
    · rw [(map_host_frame _ _).2.2.2.2.2.2]
      simp [hb]
  · simp only [hb, if_true]
    refine ⟨⟨?_, ?_, ⟨hostTuples st.db ++
        [(w.root_wf_id, r.site, r.hostname, r.ip)], ?_, ?_, ?_⟩, ?_⟩,
      ?_, ?_⟩
    · simpa using hwf
    · simp [assocGet_assocSet_self]
    · rfl
    · simp
    · intro x hx
      exact List.mem_append_left _ hx
    · unfold persistedHostCount
      simp only []
      rw [countHostEvents_append_host]
      simp [hrows, hevs]
    · simp [hb]
    · simp [hb]

theorem hostRun_maintains (rs : List Rec) :
    ∀ (st : LoaderState) (u sv hv iv : String) (w : WorkflowRow)
      (c0 : List (Option Int × String × String × String)),
    (∀ x ∈ rs, x.wf_uuid = u ∧ x.site = sv ∧ x.hostname = hv ∧
      x.ip = iv) →
    C6Inv st u w (w.root_wf_id, sv, hv, iv) c0 →
    C6Inv (hostRun st rs) u w (w.root_wf_id, sv, hv, iv) c0 ∧
    (hostRun st rs).batch = st.batch ∧
    (hostRun st rs).hostMapEvents.length =
      st.hostMapEvents.length + (if st.batch then rs.length else 0) := by
  induction rs with
  | nil =>
    intro st u sv hv iv w c0 _ hInv
    exact ⟨hInv, rfl, by cases st.batch <;> simp [hostRun]⟩
  | cons r rest ih =>
    intro st u sv hv iv w c0 hall hInv
    obtain ⟨h1, h2, h3, h4⟩ := hall r (by simp)
    have hstep := host_step_maintains st r u w
      (w.root_wf_id, sv, hv, iv) c0 h1 (by rw [h2, h3, h4]) hInv
    have hrest := ih (host st r).1 u sv hv iv w c0
      (fun x hx => hall x (by simp [hx])) hstep.1
    simp only [hostRun]
    refine ⟨hrest.1, ?_, ?_⟩
    · rw [hrest.2.1, hstep.2.1]
    · rw [hrest.2.2, hstep.2.1, hstep.2.2]
      cases st.batch <;> (simp; try omega)

/-- The state produced by resolving the workflow and job of a host object
— the prefix of `map_host_to_job_instance` before its cache check. -/
def resolveMapKeyState (st : LoaderState) (h : HostObj) :
    LoaderState × Option Int :=
  let p := wf_uuid_to_id st h.wf_uuid
  get_job_id p.1 p.2 h.exec_job_id

/-- C6: for a stream of host events carrying one identical
(workflow-root, site, hostname, ip) tuple, whatever the batching mode:
exactly one `Host` row is ever persisted (committed or queued); in batched
mode every event queues one host-to-job-instance mapping; the
de-duplication set is lazily seeded from the store content on first use
and retains the tuple; and a host-to-job-instance mapping whose
`(job id, submission sequence)` pair is already in `host_cache` performs
no further write. -/
theorem C6_host_dedup (st : LoaderState) (r0 : Rec) (rs : List Rec)
    (u sv hv iv : String) (w : WorkflowRow)
    (hall : ∀ x ∈ r0 :: rs, x.wf_uuid = u ∧ x.site = sv ∧
      x.hostname = hv ∧ x.ip = iv)
    (hwf : st.db.workflows.filter (fun x => x.wf_uuid == u) = [w])
    (hrc : assocGet st.root_wf_id_cache (PyVal.str u) = Option.none)
    (hhw : st.hosts_written_cache = Option.none)
    (hcount : persistedHostCount st (w.root_wf_id, sv, hv, iv) = 0) :
    persistedHostCount (hostRun st (r0 :: rs))
      (w.root_wf_id, sv, hv, iv) = 1 ∧
    (st.batch = true →
      (hostRun st (r0 :: rs)).hostMapEvents.length =
        st.hostMapEvents.length + (r0 :: rs).length) ∧
    (∃ c, (hostRun st (r0 :: rs)).hosts_written_cache = some c ∧
      (w.root_wf_id, sv, hv, iv) ∈ c ∧ ∀ x ∈ hostTuples st.db, x ∈ c) ∧
    (∀ (st2 : LoaderState) (hobj : HostObj) (v : Bool),
      assocGet (resolveMapKeyState st2 hobj).1.host_cache
        (pvOfOptInt (resolveMapKeyState st2 hobj).2,
         PyVal.int hobj.job_submit_seq) = some v →
      map_host_to_job_instance st2 hobj =
        ((resolveMapKeyState st2 hobj).1, Option.none)) := by
  obtain ⟨h1, h2, h3, h4⟩ := hall r0 (by simp)
  have hseed := host_step_seeds st r0 u w (w.root_wf_id, sv, hv, iv) h1
    (by rw [h2, h3, h4]) hwf hrc hhw hcount
  have hrun := hostRun_maintains rs (host st r0).1 u sv hv iv w
    (hostTuples st.db) (fun x hx => hall x (by simp [hx])) hseed.1
  simp only [hostRun]
  obtain ⟨⟨hw1, hw2, ⟨c, hc1, hc2, hc3⟩, hw4⟩, hb, hlen⟩ := hrun
  refine ⟨hw4, ?_, ⟨c, hc1, hc2, hc3⟩, ?_⟩
  · intro hbt
    rw [hlen, hseed.2.2, hseed.2.1, hbt]
    simp
    omega
  · intro st2 hobj v hv2
    unfold map_host_to_job_instance
    unfold resolveMapKeyState at hv2
    dsimp only at hv2 ⊢
    rw [hv2]
    rfl

/-- A batched loader that already persisted the root workflow `u1`. -/
def c6db : DB :=
  { workflows :=
      [{ wf_id := 1, wf_uuid := "u1", root_wf_id := some 1,
         parent_wf_id := Option.none }],
    nextId := 2 }

def c6state : LoaderState :=
  { batch := true, db := c6db }

def c6w : WorkflowRow :=
  { wf_id := 1, wf_uuid := "u1", root_wf_id := some 1,
    parent_wf_id := Option.none }

def c6rec : Rec :=
  { event := "stampede.job_inst.host.info", wf_uuid := "u1",
    exec_job_id := "j1", job_submit_seq := 1, site := "s",
    hostname := "h", ip := "i" }

/-- Witness for `C6_host_dedup`: two identical host events persist one
`Host` row and queue two mapping updates. -/
theorem C6_host_dedup_witness :
    persistedHostCount (hostRun c6state (c6rec :: [c6rec]))
      (c6w.root_wf_id, "s", "h", "i") = 1 ∧
    (hostRun c6state (c6rec :: [c6rec])).hostMapEvents.length =
      c6state.hostMapEvents.length + (c6rec :: [c6rec]).length := by
  have h := C6_host_dedup c6state c6rec [c6rec] "u1" "s" "h" "i" c6w
    (by decide) rfl rfl rfl rfl
  exact ⟨h.1, h.2.1 rfl⟩

/-! ## C9: the Record Mapper (`Analyzer.linedataToObject`, lines 171-241) -/

/-- The undotting `k.replace('.', '_')` (line 187). -/
def undot (s : String) : String :=
  String.mk (s.data.map (fun c => if c = '.' then '_' else c))

/-- The `attr_remap` rename table (lines 189-212). -/
def attr_remap (a : String) : String :=
  if a = "xwf_id" then "wf_uuid"
  else if a = "parent_xwf_id" then "parent_wf_id"
  else if a = "task_id" then "abs_task_id"
  else if a = "child_task_id" then "child_abs_task_id"
  else if a = "parent_task_id" then "parent_abs_task_id"
  else if a = "job_id" then "exec_job_id"
  else if a = "child_job_id" then "child_exec_job_id"
  else if a = "parent_job_id" then "parent_exec_job_id"
  else if a = "job_inst_id" then "job_submit_seq"
  else if a = "js_id" then "jobstate_submit_seq"
  else if a = "cluster_dur" then "cluster_duration"
  else if a = "local_dur" then "local_duration"
  else if a = "inv_id" then "task_submit_seq"
  else if a = "dur" then "remote_duration"
  else a

/-- Escape every backslash: `v.replace("\\", "\\\\")` (line 221). -/
def escapeBackslashes (cs : List Char) : List Char :=
  cs.foldr (fun c acc =>
    if c = Char.ofNat 92 then Char.ofNat 92 :: Char.ofNat 92 :: acc
    else c :: acc) []

/-- Escape every single quote: `v.replace("\x27", "\\\x27")` (line 222). -/
def escapeQuotes (cs : List Char) : List Char :=
  cs.foldr (fun c acc =>
    if c = Char.ofNat 39 then Char.ofNat 92 :: Char.ofNat 39 :: acc
    else c :: acc) []

/-- Sanitisation of the `argv` field (lines 219-222): escape backslashes,
then single quotes; `None` is left alone. -/
def sanitizeArgv (v : PyVal) : PyVal :=
  match v with
  | PyVal.str s => PyVal.str (String.mk (escapeQuotes (escapeBackslashes s.data)))
  | x => x

/-- The per-field loop of `linedataToObject` (lines 182-227): skip the
`level` field, undot and remap the name, sanitise `argv`, then `setattr`
inside a bare `try/except` — a field the target entity cannot accept
(`valid` is false) is logged and dropped, and the loop continues. -/
def assignFields (valid : String → Bool) :
    List (String × PyVal) → List (String × PyVal) → Nat →
    (List (String × PyVal)) × Nat
  | o, [], errs => (o, errs)
  | o, (k, v) :: rest, errs =>
    if k = "level" then assignFields valid o rest errs
    else
      let attr := attr_remap (undot k)
      let v2 := if attr = "argv" then sanitizeArgv v else v
      if valid attr then assignFields valid (assocSet o attr v2) rest errs
      else assignFields valid o rest (errs + 1)

def parseNatDigits (cs : List Char) : Option Nat :=
  if cs.isEmpty then Option.none
  else if cs.all Char.isDigit then
    some (cs.foldl (fun a c => a * 10 + (c.toNat - 48)) 0)
  else Option.none

def parseUnsignedDecimal (s : String) : Option Rat :=
  match s.splitOn "." with
  | [wpart] => (parseNatDigits wpart.toList).map (fun n => (n : Rat))
  | [wpart, fpart] =>
    match parseNatDigits wpart.toList, parseNatDigits fpart.toList with
    | some wn, some fn =>
      some ((wn : Rat) + (fn : Rat) / ((10 : Rat) ^ fpart.length))
    | _, _ => Option.none
  | _ => Option.none

/-- Python `float(v)` on the values the loader sees: numbers pass
through, decimal strings parse, `None` and malformed strings raise
(modelled as `Option.none`). -/
def pyFloat (v : PyVal) : Option PyVal :=
  match v with
  | PyVal.int n => some (PyVal.real (n : Rat))
  | PyVal.real q => some (PyVal.real q)
  | PyVal.str s =>
    if startsWithPy s "-" then
      (parseUnsignedDecimal (s.drop 1)).map (fun q => PyVal.real (-q))
    else (parseUnsignedDecimal s).map PyVal.real
  | PyVal.none => Option.none

/-- Python `int(v)`: ints pass, floats truncate toward zero, integer
strings parse; `None` and malformed strings raise. -/
def pyInt (v : PyVal) : Option PyVal :=
  match v with
  | PyVal.int n => some (PyVal.int n)
  | PyVal.real q => some (PyVal.int (q.num / (q.den : Int)))
  | PyVal.str s =>
    if startsWithPy s "-" then
      (parseNatDigits (s.drop 1).toList).map (fun n => PyVal.int (-(n : Int)))
    else (parseNatDigits s.toList).map (fun n => PyVal.int (n : Int))
  | PyVal.none => Option.none

/-- One global coercion (lines 230-240): if the attribute is present —
and, where the source checks, not `None` — apply the conversion; a failed
conversion is an exception escaping `linedataToObject`. -/
def coerceField (noneCheck : Bool) (f : PyVal → Option PyVal) (k : String)
    (o : List (String × PyVal)) : Option (List (String × PyVal)) :=
  match assocGet o k with
  | Option.none => some o
  | some v =>
    if noneCheck && (v == PyVal.none) then some o
    else (f v).map (assocSet o k)

/-- The global type re-assignments (lines 229-240): `ts` (no `None`
guard), `start_time`, `cluster_start_time` and `duration` to float,
`restart_count` to int. -/
def applyCoercions (o : List (String × PyVal)) :
    Option (List (String × PyVal)) :=
  (coerceField false pyFloat "ts" o).bind (fun o1 =>
  (coerceField true pyFloat "start_time" o1).bind (fun o2 =>
  (coerceField true pyFloat "cluster_start_time" o2).bind (fun o3 =>
  (coerceField true pyFloat "duration" o3).bind (fun o4 =>
  coerceField true pyInt "restart_count" o4))))

/-- `Analyzer.linedataToObject` over an abstract target entity: `valid`
says which attribute names the entity accepts (the reflective `setattr`
fails exactly on the others).  Returns the assigned fields and the count
of dropped-and-logged fields; `Option.none` models an exception escaping
from the global coercions. -/
def linedataToObject (valid : String → Bool)
    (linedata : List (String × PyVal)) :
    Option ((List (String × PyVal)) × Nat) :=
  let p := assignFields valid [] linedata 0
  (applyCoercions p.1).map (fun o2 => (o2, p.2))

/-- The Record Mapper as the spec words it: every field that cannot be
assigned to the target entity is dropped and logged (counted), all
remaining fields are renamed, argv-sanitised and assigned, and the global
coercions still apply to the result. -/
def specMapRecord (valid : String → Bool)
    (linedata : List (String × PyVal)) :
    Option ((List (String × PyVal)) × Nat) :=
  let kept := linedata.filter (fun kv =>
    (kv.1 != "level") && valid (attr_remap (undot kv.1)))
  let dropped := linedata.filter (fun kv =>
    (kv.1 != "level") && !valid (attr_remap (undot kv.1)))
  let o := kept.foldl (fun acc kv =>
    assocSet acc (attr_remap (undot kv.1))
      (if attr_remap (undot kv.1) = "argv" then sanitizeArgv kv.2
       else kv.2)) []
  (applyCoercions o).map (fun o2 => (o2, dropped.length))

theorem assignFields_spec (valid : String → Bool)
    (linedata : List (String × PyVal)) :
    ∀ (o : List (String × PyVal)) (errs : Nat),
    assignFields valid o linedata errs =
      ((linedata.filter (fun kv =>
          (kv.1 != "level") && valid (attr_remap (undot kv.1)))).foldl
        (fun acc kv => assocSet acc (attr_remap (undot kv.1))
          (if attr_remap (undot kv.1) = "argv" then sanitizeArgv kv.2
           else kv.2)) o,
       errs + (linedata.filter (fun kv =>
          (kv.1 != "level") && !valid (attr_remap (undot kv.1)))).length)
    := by
  induction linedata with
  | nil =>
    intro o errs
    simp [assignFields]
  | cons kv rest ih =>
    obtain ⟨k, v⟩ := kv
    intro o errs
    by_cases hl : k = "level"
    · simp [assignFields, hl, ih, List.filter_cons]
    · by_cases hv : valid (attr_remap (undot k))
      · simp [assignFields, hl, hv, ih, List.filter_cons]
      · simp [assignFields, hl, hv, ih, List.filter_cons]
        omega

/-- C9: the byte-for-byte field loop of `linedataToObject` — skipping and
logging exactly the unassignable fields, with the fixed rename table and
argv sanitisation, and the global coercions on top — computes the same
result as the spec-level description `specMapRecord`; in particular a bad
field never aborts the record, and the drop count equals the number of
unassignable fields. -/
theorem C9_field_drop_never_aborts (valid : String → Bool)
    (linedata : List (String × PyVal)) :
    linedataToObject valid linedata = specMapRecord valid linedata ∧
    (assignFields valid [] linedata 0).2 =
      (linedata.filter (fun kv =>
        (kv.1 != "level") && !valid (attr_remap (undot kv.1)))).length ∧
    attr_remap (undot "xwf.id") = "wf_uuid" ∧
    attr_remap (undot "job.id") = "exec_job_id" ∧
    attr_remap (undot "job_inst.id") = "job_submit_seq" ∧
    sanitizeArgv (PyVal.str "a\\b\x27c") =
      PyVal.str "a\\\\b\\\x27c" := by
  refine ⟨?_, ?_, ?_, ?_, ?_, ?_⟩
  · unfold linedataToObject specMapRecord
    rw [assignFields_spec valid linedata [] 0]
    simp
  · rw [assignFields_spec valid linedata [] 0]
    simp
  · decide
  · decide
  · decide
  · decide

end Stampede
